import Mathlib

/-!
# Pretty-print toggle of the debugger (`src/actions/sources/prettyPrint.js`)

The two thunks of the file, `createPrettySource` and `togglePrettyPrint`, are
embedded as effect trees: every synchronous store access, every plain action
dispatched and every awaited collaborator call of the JavaScript is one node.
An interpreter runs a tree against an environment of collaborators and records
a trace of the effects in the order in which they happen.
-/

namespace PrettyPrint

/-! ## Data model -/

/-- Load status of a source (`loadedState`). -/
inductive LoadedState where
  | unloaded
  | loading
  | loaded
deriving DecidableEq

/-- The source record `{ id, url, contentType, isPrettyPrinted, loadedState, text? }`. -/
structure Source where
  id : String
  url : String
  contentType : String
  isPrettyPrinted : Bool
  loadedState : LoadedState
  text : Option String
deriving DecidableEq

/-- The location record `{ sourceId, line, column? }`. -/
structure Location where
  sourceId : String
  line : Nat
  column : Option Nat
deriving DecidableEq

/-- The object literal `{ ...options.location, sourceId }` handed to `selectLocation`:
the line and column are present only when `options.location` is. -/
structure SelectArg where
  sourceId : String
  line : Option Nat
  column : Option Nat
deriving DecidableEq

/-- The plain actions dispatched by `createPrettySource`. -/
inductive Action where
  | ADD_SOURCE (source : Source)
  | UPDATE_SOURCE (source : Source)
deriving DecidableEq

/-- The source carried by an action. -/
def Action.source : Action → Source
  | .ADD_SOURCE s => s
  | .UPDATE_SOURCE s => s

/-- The store: the source registry, the selected location, and everything else
(breakpoints, pause state, indexes, worker state) as `ext`. -/
structure Store (X : Type) where
  sources : List Source
  selectedLocation : Option Location
  ext : X

/-- Ways in which a thunk's promise is rejected. -/
inductive Err where
  | assertion (message : String)
  | typeError (message : String)
  | rejected (reason : String)
deriving DecidableEq

/-- What `togglePrettyPrint` resolves to: the empty object `{}` or the value of the
`selectLocation` dispatch. -/
inductive ToggleResult (R : Type) where
  | empty
  | selected (value : R)
deriving DecidableEq

/-! ## Store primitives -/

/-- Modelled from the spec: the selector `getSource(state, id)` of the Source Registry
(`../../selectors` is not part of the fragment), lookup by id. -/
def getSource {X : Type} (state : Store X) (id : String) : Option Source :=
  state.sources.find? (fun s => s.id == id)

/-- Modelled from the spec: the selector `getSourceByURL(state, url)` of the Source
Registry (`../../selectors` is not part of the fragment), lookup by URL. -/
def getSourceByURL {X : Type} (state : Store X) (url : String) : Option Source :=
  state.sources.find? (fun s => s.url == url)

/-- Modelled from the spec: the selector `getSelectedLocation(state)`
(`../../selectors` is not part of the fragment). -/
def getSelectedLocation {X : Type} (state : Store X) : Option Location :=
  state.selectedLocation

/-- Modelled from the spec: `isLoaded(source)` of `../../utils/source`, true when the
text of the source has been loaded. -/
def isLoaded (source : Source) : Bool :=
  source.loadedState == LoadedState.loaded

/-- Registry write keyed by id: the entry with the id of `s` is replaced, a new id is
appended. -/
def upsert (s : Source) : List Source → List Source
  | [] => [s]
  | t :: ts => if t.id == s.id then s :: ts else t :: upsert s ts

/-- Modelled from the spec: the registry primitives `addSource` and `updateSource`
reached by the actions `ADD_SOURCE` and `UPDATE_SOURCE` (the reducer is not part of the
fragment); the registry is keyed by id. -/
def reducer {X : Type} (action : Action) (state : Store X) : Store X :=
  { state with sources := upsert action.source state.sources }

/-- The spread `{ ...options.location, sourceId: id }` of lines 98 and 110. -/
def spreadLocation (location : Option Location) (sourceId : String) : SelectArg :=
  match location with
  | none => { sourceId := sourceId, line := none, column := none }
  | some l => { sourceId := sourceId, line := some l.line, column := l.column }

/-! ## Effects -/

/-- The awaited collaborator calls of the file. -/
inductive Op (M : Type) where
  | loadSourceText (source : Source)
  | getOriginalLocation (location : Location)
  | generatedToOriginalId (sourceId url : String)
  | prettyPrint (source : Source) (url : String)
  | applySourceMap (sourceId url code : String) (mappings : M)
  | remapBreakpoints (sourceId : String)
  | mapFrames
  | setPausePoints (sourceId : String)
  | setSymbols (sourceId : String)
  | selectLocation (location : SelectArg)

/-- The type of the value an awaited call resolves to. -/
def Op.Res {M : Type} (R : Type) : Op M → Type
  | .loadSourceText _ => Unit
  | .getOriginalLocation _ => Location
  | .generatedToOriginalId _ _ => String
  | .prettyPrint _ _ => String × M
  | .applySourceMap _ _ _ _ => Unit
  | .remapBreakpoints _ => Unit
  | .mapFrames => Unit
  | .setPausePoints _ => Unit
  | .setSymbols _ => Unit
  | .selectLocation _ => R

/-- One entry of the trace of effects: a plain action dispatched, the parser worker's
`setSource`, or an awaited call together with whether its promise resolved (`true`) or
rejected (`false`). -/
inductive Event (M : Type) where
  | dispatch (action : Action)
  | setSource (source : Source)
  | call (op : Op M) (resolved : Bool)

/-- The collaborators of the file. The source-map service, the pretty-print worker and
the parser worker live outside the store and act on `ext` only; the thunks dispatched
to the store act on the whole store. A call yields `error` when its promise rejects. -/
structure Env (X M R : Type) where
  getPrettySourceURL : String → String
  isGeneratedId : String → Bool
  generatedToOriginalId : String → String → X → Except String String × X
  getOriginalLocation : Location → X → Except String Location × X
  applySourceMap : String → String → String → M → X → Except String Unit × X
  prettyPrint : Source → String → X → Except String (String × M) × X
  setSource : Source → X → X
  loadSourceText : Source → Store X → Except String Unit × Store X
  remapBreakpoints : String → Store X → Except String Unit × Store X
  mapFrames : Store X → Except String Unit × Store X
  setPausePoints : String → Store X → Except String Unit × Store X
  setSymbols : String → Store X → Except String Unit × Store X
  selectLocation : SelectArg → Store X → Except String R × Store X

/-- A worker call seen from the store: only `ext` changes. -/
def onExt {X α : Type} (f : X → Except String α × X) (state : Store X) :
    Except String α × Store X :=
  ((f state.ext).1, { state with ext := (f state.ext).2 })

/-- The collaborator behind each awaited call. -/
def Env.perform {X M R : Type} (env : Env X M R) :
    (op : Op M) → Store X → Except String (op.Res R) × Store X
  | .loadSourceText s => env.loadSourceText s
  | .getOriginalLocation l => onExt (env.getOriginalLocation l)
  | .generatedToOriginalId i u => onExt (env.generatedToOriginalId i u)
  | .prettyPrint s u => onExt (env.prettyPrint s u)
  | .applySourceMap i u c m => onExt (env.applySourceMap i u c m)
  | .remapBreakpoints i => env.remapBreakpoints i
  | .mapFrames => env.mapFrames
  | .setPausePoints i => env.setPausePoints i
  | .setSymbols i => env.setSymbols i
  | .selectLocation l => env.selectLocation l

/-- An async function as a tree of effects. `getState`, `dispatch` and `setSource` are
synchronous; `await` is a suspension point. -/
inductive Prog (X M R α : Type) where
  | ret (a : α)
  | throw (e : Err)
  | getState (k : Store X → Prog X M R α)
  | dispatch (action : Action) (k : Prog X M R α)
  | setSource (source : Source) (k : Prog X M R α)
  | await (op : Op M) (k : op.Res R → Prog X M R α)

/-- Sequencing: the continuation runs on the value the first tree returns. -/
def Prog.bind {X M R α β : Type} : Prog X M R α → (α → Prog X M R β) → Prog X M R β
  | .ret a, f => f a
  | .throw e, _ => .throw e
  | .getState k, f => .getState fun s => (k s).bind f
  | .dispatch a k, f => .dispatch a (k.bind f)
  | .setSource s k, f => .setSource s (k.bind f)
  | .await op k, f => .await op fun v => (k v).bind f

/-- Modelled from the spec: `assert(condition, message)` of `../../utils/assert`, which
fails fast with an assertion failure when the condition is false. -/
def assert {X M R α : Type} (condition : Bool) (message : String) (k : Prog X M R α) :
    Prog X M R α :=
  if condition then k else .throw (.assertion message)

/-- What a finished run leaves behind: the value or the rejection, the store, and the
effects of the run in the order in which they happened. -/
structure Outcome (X M α : Type) where
  result : Except Err α
  store : Store X
  trace : List (Event M)

/-- Puts an effect in front of the trace of what follows it. -/
def Outcome.after {X M α : Type} (ev : Event M) (o : Outcome X M α) : Outcome X M α :=
  { o with trace := ev :: o.trace }

/-- Runs a tree to completion with nothing interleaved: each effect is recorded in the
trace, a rejected call rejects the whole tree. -/
def Prog.run {X M R α : Type} (env : Env X M R) :
    Prog X M R α → Store X → Outcome X M α
  | .ret a, st => { result := .ok a, store := st, trace := [] }
  | .throw e, st => { result := .error e, store := st, trace := [] }
  | .getState k, st => (k st).run env st
  | .dispatch a k, st => (k.run env (reducer a st)).after (.dispatch a)
  | .setSource s k, st =>
    (k.run env { st with ext := env.setSource s st.ext }).after (.setSource s)
  | .await op k, st =>
    match (env.perform op st).1 with
    | .ok v => ((k v).run env (env.perform op st).2).after (.call op true)
    | .error e =>
      { result := .error (.rejected e), store := (env.perform op st).2,
        trace := [.call op false] }

/-! ## The thunks -/

/-- The thunk `createPrettySource(sourceId)`, lines 26-56. -/
def createPrettySource {X M R : Type} (env : Env X M R) (sourceId : String) :
    Prog X M R Source :=
  .getState fun state =>
  match getSource state sourceId with
  | none => .throw (.typeError "source is undefined")
  | some source =>
    let url := env.getPrettySourceURL source.url
    .await (.generatedToOriginalId sourceId url) fun id =>
    let prettySource : Source :=
      { url := url, id := id, isPrettyPrinted := true, contentType := "text/javascript",
        loadedState := .loading, text := none }
    .dispatch (.ADD_SOURCE prettySource) <|
    .await (.prettyPrint source url) fun r =>
    .await (.applySourceMap source.id url r.1 r.2) fun _ =>
    let loadedPrettySource : Source :=
      { prettySource with text := some r.1, loadedState := .loaded }
    .setSource loadedPrettySource <|
    .dispatch (.UPDATE_SOURCE loadedPrettySource) <|
    .ret prettySource

/-- Lines 77-79: `if (!isLoaded(source)) await dispatch(loadSourceText(source))`. -/
def loadIfNeeded {X M R : Type} (source : Source) : Prog X M R Unit :=
  if !isLoaded source then .await (.loadSourceText source) fun _ => .ret () else .ret ()

/-- Lines 90-93: `options.location`, the awaited translation of the selected location when
there is one. -/
def translateSelected {X M R : Type} (selectedLocation : Option Location) :
    Prog X M R (Option Location) :=
  match selectedLocation with
  | some l => .await (.getOriginalLocation l) fun loc => .ret (some loc)
  | none => .ret none

/-- The thunk `togglePrettyPrint(sourceId)`, lines 70-113. -/
def togglePrettyPrint {X M R : Type} (env : Env X M R) (sourceId : String) :
    Prog X M R (ToggleResult R) :=
  .getState fun state =>
  match getSource state sourceId with
  | none => .ret .empty
  | some source =>
    (loadIfNeeded source).bind fun _ =>
    assert (env.isGeneratedId sourceId) "Pretty-printing only allowed on generated sources" <|
    .getState fun state1 =>
    let selectedLocation := getSelectedLocation state1
    let url := env.getPrettySourceURL source.url
    .getState fun state2 =>
    let prettySource := getSourceByURL state2 url
    (translateSelected selectedLocation).bind fun location =>
    match prettySource with
    | some p =>
      .await (.selectLocation (spreadLocation location p.id)) fun r => .ret (.selected r)
    | none =>
      (createPrettySource env sourceId).bind fun newPrettySource =>
      .await (.remapBreakpoints sourceId) fun _ =>
      .await .mapFrames fun _ =>
      .await (.setPausePoints newPrettySource.id) fun _ =>
      .await (.setSymbols newPrettySource.id) fun _ =>
      .await (.selectLocation (spreadLocation location newPrettySource.id)) fun r =>
      .ret (.selected r)


/-! ## Auxiliary definitions for the statements -/

/-- Puts the trace of an earlier segment in front of an outcome. -/
def Outcome.prepend {X M α : Type} (t : List (Event M)) (o : Outcome X M α) : Outcome X M α :=
  { result := o.result, store := o.store, trace := t ++ o.trace }

/-- The store at line 81, once the text load of lines 77-79 (if there is one) is over. -/
def afterLoad {X M R : Type} (env : Env X M R) (source : Source) (state : Store X) : Store X :=
  if isLoaded source then state else (env.loadSourceText source state).2

/-- The value of `options.location` after lines 90-93 when the translation resolves. -/
def translated {X M R : Type} (env : Env X M R) (state : Store X) : Option Location :=
  match getSelectedLocation state with
  | none => none
  | some l =>
    match (env.getOriginalLocation l state.ext).1 with
    | .ok loc => some loc
    | .error _ => none

/-- The store once the translation of lines 90-93 (if there is one) is over. -/
def afterTranslate {X M R : Type} (env : Env X M R) (state : Store X) : Store X :=
  match getSelectedLocation state with
  | none => state
  | some l => { state with ext := (env.getOriginalLocation l state.ext).2 }

/-- The effects of lines 77-93 on a run in which they all resolve. -/
def preamble {X M R : Type} (env : Env X M R) (source : Source) (state : Store X) :
    List (Event M) :=
  (if isLoaded source then [] else [.call (.loadSourceText source) true]) ++
  (match getSelectedLocation (afterLoad env source state) with
   | none => []
   | some l => [.call (.getOriginalLocation l) true])



/-- The effect of lines 77-79 on a run in which the load (if there is one) resolves. -/
def loadTrace {M : Type} (source : Source) : List (Event M) :=
  if isLoaded source then [] else [.call (.loadSourceText source) true]

/-- Lines 95-100, the reuse path: select the existing pretty source. -/
def reusePath {X M R : Type} (location : Option Location) (p : Source) :
    Prog X M R (ToggleResult R) :=
  .await (.selectLocation (spreadLocation location p.id)) fun r => .ret (.selected r)

/-- Lines 102-111, the creation path: create the pretty source, remap, select. -/
def creationPath {X M R : Type} (env : Env X M R) (sourceId : String)
    (location : Option Location) : Prog X M R (ToggleResult R) :=
  (createPrettySource env sourceId).bind fun newPrettySource =>
  .await (.remapBreakpoints sourceId) fun _ =>
  .await .mapFrames fun _ =>
  .await (.setPausePoints newPrettySource.id) fun _ =>
  .await (.setSymbols newPrettySource.id) fun _ =>
  .await (.selectLocation (spreadLocation location newPrettySource.id)) fun r =>
  .ret (.selected r)

/-- The placeholder record of lines 32-38. -/
def placeholder (url id : String) : Source :=
  { url := url, id := id, isPrettyPrinted := true, contentType := "text/javascript",
    loadedState := .loading, text := none }

/-- The loaded record of lines 44-48. -/
def loadedPretty (url id code : String) : Source :=
  { placeholder url id with text := some code, loadedState := .loaded }

/-- An `ADD_SOURCE` dispatch. -/
def Event.isAddSource {M : Type} : Event M → Bool
  | .dispatch (.ADD_SOURCE _) => true
  | _ => false

/-- An `UPDATE_SOURCE` dispatch. -/
def Event.isUpdateSource {M : Type} : Event M → Bool
  | .dispatch (.UPDATE_SOURCE _) => true
  | _ => false

/-- A call of the reformat service, `prettyPrint`. -/
def Event.isReformat {M : Type} : Event M → Bool
  | .call (.prettyPrint _ _) _ => true
  | _ => false

/-- A call of the mapping bind, `applySourceMap`. -/
def Event.isBind {M : Type} : Event M → Bool
  | .call (.applySourceMap _ _ _ _) _ => true
  | _ => false

/-- A call of the location translation, `getOriginalLocation`. -/
def Event.isTranslate {M : Type} : Event M → Bool
  | .call (.getOriginalLocation _) _ => true
  | _ => false

/-- One of the remap steps of lines 104-107. -/
def Event.isRemapStep {M : Type} : Event M → Bool
  | .call (.remapBreakpoints _) _ => true
  | .call .mapFrames _ => true
  | .call (.setPausePoints _) _ => true
  | .call (.setSymbols _) _ => true
  | _ => false

/-- A `selectLocation` dispatch. -/
def Event.isSelectLocation {M : Type} : Event M → Bool
  | .call (.selectLocation _) _ => true
  | _ => false

/-- An effect that only the creation path has: everything except the text load, the
location translation and the selection. -/
def Event.isCreationStep {M : Type} : Event M → Bool
  | .call (.loadSourceText _) _ => false
  | .call (.getOriginalLocation _) _ => false
  | .call (.selectLocation _) _ => false
  | _ => true

/-- Lines 104-111: the remap steps and the selection that follow the creation. -/
def remapAndSelect {X M R : Type} (sourceId : String) (location : Option Location)
    (newPrettySource : Source) : Prog X M R (ToggleResult R) :=
  .await (.remapBreakpoints sourceId) fun _ =>
  .await .mapFrames fun _ =>
  .await (.setPausePoints newPrettySource.id) fun _ =>
  .await (.setSymbols newPrettySource.id) fun _ =>
  .await (.selectLocation (spreadLocation location newPrettySource.id)) fun r =>
  .ret (.selected r)

/-- The store after the four remap steps of lines 104-107. -/
def afterRemap {X M R : Type} (env : Env X M R) (sourceId : String) (p : Source)
    (state : Store X) : Store X :=
  (env.setSymbols p.id (env.setPausePoints p.id
    (env.mapFrames (env.remapBreakpoints sourceId state).2).2).2).2

/-- A rejected call of the reformat service or of the mapping bind. -/
def Event.isTransformFailure {M : Type} : Event M → Bool
  | .call (.prettyPrint _ _) false => true
  | .call (.applySourceMap _ _ _ _) false => true
  | _ => false

/-- The two keys of a registry entry: its id and its URL. -/
def Source.key (s : Source) : String × String := (s.id, s.url)

/-- The collaborators neither register nor remove sources and leave ids and URLs alone
(they may change the text and the load status of an entry). -/
def Env.KeepsSources {X M R : Type} (env : Env X M R) : Prop :=
  ∀ (op : Op M) (st : Store X),
    (env.perform op st).2.sources.map Source.key = st.sources.map Source.key

/-- The ids the source-map service derives are not generated ids. -/
def Env.DerivedIdsNotGenerated {X M R : Type} (env : Env X M R) : Prop :=
  ∀ (i u : String) (x : X) (d : String),
    (env.generatedToOriginalId i u x).1 = .ok d → env.isGeneratedId d = false

/-- The number of registry entries with a given URL. -/
def countByURL {X : Type} (state : Store X) (url : String) : Nat :=
  (state.sources.filter (fun s => s.url == url)).length

/-! ## A concrete debugging session

The scenario of the specification: a generated source `gen1` at `foo.js`, whose pretty
variant lives at `foo.js:formatted`. The worker state is one flag, whether a pretty
mapping has been bound; locations translate only once it has. -/

/-- The generated source of the scenario. -/
def gen1 : Source :=
  { id := "gen1", url := "foo.js", contentType := "text/javascript", isPrettyPrinted := false,
    loadedState := .loaded, text := some "function f(a){return a+1}" }

/-- A stylesheet, registered and loaded. -/
def css1 : Source :=
  { id := "css1", url := "site.css", contentType := "text/css", isPrettyPrinted := false,
    loadedState := .loaded, text := some "a{color:red}" }

/-- Collaborators that all resolve. -/
def demoEnv : Env Bool Nat SelectArg where
  getPrettySourceURL u := u ++ ":formatted"
  isGeneratedId i := i == "gen1" || i == "css1"
  generatedToOriginalId i _ x := (.ok (i ++ "/originalSource"), x)
  getOriginalLocation l x :=
    (.ok (if x then { l with line := l.line + 1, column := some 2 } else l), x)
  applySourceMap _ _ _ _ _ := (.ok (), true)
  prettyPrint s _ x := (.ok (s.text.getD "" ++ "\n", 7), x)
  setSource _ x := x
  loadSourceText _ st := (.ok (), st)
  remapBreakpoints _ st := (.ok (), st)
  mapFrames st := (.ok (), st)
  setPausePoints _ st := (.ok (), st)
  setSymbols _ st := (.ok (), st)
  selectLocation l st := (.ok l, st)

/-- The same collaborators with a reformat service that rejects. -/
def failingEnv : Env Bool Nat SelectArg :=
  { demoEnv with prettyPrint := fun _ _ x => (.error "unparsable", x) }

/-- A session with `gen1` and `css1` registered and nothing selected. -/
def demoStore : Store Bool :=
  { sources := [gen1, css1], selectedLocation := none, ext := false }

/-- The same session with line 1, column 20 of `gen1` selected. -/
def selectedStore : Store Bool :=
  { sources := [gen1, css1],
    selectedLocation := some { sourceId := "gen1", line := 1, column := some 20 },
    ext := false }

/-- The pretty variant of `gen1`, fully loaded. -/
def pretty1 : Source :=
  { id := "gen1/originalSource", url := "foo.js:formatted", contentType := "text/javascript",
    isPrettyPrinted := true, loadedState := .loaded,
    text := some "function f(a){return a+1}\n" }

/-- The session after `gen1` has been pretty-printed. -/
def toggledStore : Store Bool :=
  { sources := [gen1, css1, pretty1], selectedLocation := none, ext := true }

/-- The same collaborators with a text load that rejects. -/
def offlineEnv : Env Bool Nat SelectArg :=
  { demoEnv with loadSourceText := fun _ st => (.error "offline", st) }

/-- The session while `gen1` is being pretty-printed: the placeholder is registered, its
text not yet loaded. -/
def loadingStore : Store Bool :=
  { sources := [gen1, css1, placeholder "foo.js:formatted" "gen1/originalSource"],
    selectedLocation := none, ext := false }

/-! ## Calls in flight together

JavaScript runs one task at a time; a task gives way only at an `await`. A call in flight
is the rest of its tree; resuming it completes the call it awaits and runs it on to its
next `await`. -/

/-- The store and the trace of all effects so far, shared by the calls in flight. -/
structure World (X M : Type) where
  store : Store X
  trace : List (Event M)

/-- Runs the synchronous nodes at the head of a tree, up to its next `await` or its
end. -/
def Prog.sync {X M R α : Type} (env : Env X M R) :
    Prog X M R α → World X M → Prog X M R α × World X M
  | .getState k, w => (k w.store).sync env w
  | .dispatch a k, w =>
    k.sync env { store := reducer a w.store, trace := w.trace ++ [.dispatch a] }
  | .setSource s k, w =>
    k.sync env { store := { w.store with ext := env.setSource s w.store.ext },
                 trace := w.trace ++ [.setSource s] }
  | .ret a, w => (.ret a, w)
  | .throw e, w => (.throw e, w)
  | .await op k, w => (.await op k, w)

/-- Resumes a call suspended at an `await`: the awaited call completes and the tree runs
on to its next `await` or its end; a rejection ends it. A call that has ended stays as it
is. -/
def Prog.resume {X M R α : Type} (env : Env X M R) :
    Prog X M R α → World X M → Prog X M R α × World X M
  | .await op k, w =>
    match (env.perform op w.store).1 with
    | .ok v =>
      (k v).sync env { store := (env.perform op w.store).2, trace := w.trace ++ [.call op true] }
    | .error e =>
      (.throw (.rejected e),
        { store := (env.perform op w.store).2, trace := w.trace ++ [.call op false] })
  | p, w => (p, w)

/-- Resumes one call `n` times with nothing else in between. -/
def Prog.resumeN {X M R α : Type} (env : Env X M R) :
    Nat → Prog X M R α × World X M → Prog X M R α × World X M
  | 0, c => c
  | n + 1, c => Prog.resumeN env n (c.1.resume env c.2)

/-- Two calls in flight over one world. -/
structure Pair (X M R α : Type) where
  world : World X M
  first : Prog X M R α
  second : Prog X M R α

/-- One scheduling step: `true` resumes the first call, `false` the second. -/
def Pair.step {X M R α : Type} (env : Env X M R) (c : Pair X M R α) (b : Bool) :
    Pair X M R α :=
  if b then
    { world := (c.first.resume env c.world).2, first := (c.first.resume env c.world).1,
      second := c.second }
  else
    { world := (c.second.resume env c.world).2, first := c.first,
      second := (c.second.resume env c.world).1 }

/-- Runs a schedule. -/
def Pair.steps {X M R α : Type} (env : Env X M R) (c : Pair X M R α) (schedule : List Bool) :
    Pair X M R α :=
  schedule.foldl (Pair.step env) c

/-- The first `togglePrettyPrint(sourceId)` alone: issued on a fresh trace, then resumed
`n` times. -/
def firstAlone {X M R : Type} (env : Env X M R) (sourceId : String) (st : Store X) (n : Nat) :
    Prog X M R (ToggleResult R) × World X M :=
  Prog.resumeN env n ((togglePrettyPrint env sourceId).sync env { store := st, trace := [] })

/-- Two calls `togglePrettyPrint(sourceId)`, the second issued once the first has been
resumed `n` times; with `n = 0` the calls are issued back to back. -/
def staggered {X M R : Type} (env : Env X M R) (sourceId : String) (st : Store X) (n : Nat) :
    Pair X M R (ToggleResult R) :=
  { world := ((togglePrettyPrint env sourceId).sync env (firstAlone env sourceId st n).2).2,
    first := (firstAlone env sourceId st n).1,
    second := ((togglePrettyPrint env sourceId).sync env (firstAlone env sourceId st n).2).1 }

/-- Whether a call has ended. -/
def Prog.ended {X M R α : Type} : Prog X M R α → Bool
  | .ret _ => true
  | .throw _ => true
  | _ => false

/-- The awaited calls other than the reformat, the mapping bind and the id derivation. -/
def Op.isPlain {M : Type} : Op M → Bool
  | .prettyPrint _ _ => false
  | .applySourceMap _ _ _ _ => false
  | .generatedToOriginalId _ _ => false
  | _ => true

/-- The source registered as `sourceId`, if any, has pretty URL `url`. -/
def UrlStable {X M R : Type} (env : Env X M R) (sourceId url : String) (st : Store X) : Prop :=
  ∀ s, getSource st sourceId = some s → env.getPrettySourceURL s.url = url

/-- Some source is registered for `url`. -/
def Registered {X : Type} (url : String) (st : Store X) : Prop :=
  ∃ p, getSourceByURL st url = some p

/-- What is left of a call stays within a budget: at most `a` dispatches of `ADD_SOURCE`,
`n` reformat calls and `m` mapping binds on any of its paths, every source it dispatches
has URL `url` and an id other than `sourceId`. The stores it reads keep the URL of
`sourceId` and, when `g` is set, have a source registered for `url`; the ids it is given
by the source-map service are not generated ids. -/
inductive Within {X M R α : Type} (env : Env X M R) (sourceId url : String) (g : Bool) :
    Nat → Nat → Nat → Prog X M R α → Prop where
  | ret (a n m : Nat) (x : α) : Within env sourceId url g a n m (.ret x)
  | throw (a n m : Nat) (e : Err) : Within env sourceId url g a n m (.throw e)
  | getState (a n m : Nat) (k : Store X → Prog X M R α) :
    (∀ st, UrlStable env sourceId url st → (g = true → Registered url st) →
      Within env sourceId url g a n m (k st)) →
    Within env sourceId url g a n m (.getState k)
  | add (a n m : Nat) (s : Source) (k : Prog X M R α) :
    s.url = url → s.id ≠ sourceId → Within env sourceId url g a n m k →
    Within env sourceId url g (a + 1) n m (.dispatch (.ADD_SOURCE s) k)
  | update (a n m : Nat) (s : Source) (k : Prog X M R α) :
    s.url = url → s.id ≠ sourceId → Within env sourceId url g a n m k →
    Within env sourceId url g a n m (.dispatch (.UPDATE_SOURCE s) k)
  | setSource (a n m : Nat) (s : Source) (k : Prog X M R α) :
    Within env sourceId url g a n m k →
    Within env sourceId url g a n m (.setSource s k)
  | reformat (a n m : Nat) (s : Source) (u : String)
    (k : (Op.prettyPrint s u : Op M).Res R → Prog X M R α) :
    (∀ v, Within env sourceId url g a n m (k v)) →
    Within env sourceId url g a (n + 1) m (.await (.prettyPrint s u) k)
  | bind (a n m : Nat) (i u c : String) (mp : M)
    (k : (Op.applySourceMap i u c mp : Op M).Res R → Prog X M R α) :
    (∀ v, Within env sourceId url g a n m (k v)) →
    Within env sourceId url g a n (m + 1) (.await (.applySourceMap i u c mp) k)
  | derive (a n m : Nat) (i u : String)
    (k : (Op.generatedToOriginalId i u : Op M).Res R → Prog X M R α) :
    (∀ d : String, env.isGeneratedId d = false → Within env sourceId url g a n m (k d)) →
    Within env sourceId url g a n m (.await (.generatedToOriginalId i u) k)
  | plain (a n m : Nat) (op : Op M) (k : op.Res R → Prog X M R α) :
    op.isPlain = true → (∀ v, Within env sourceId url g a n m (k v)) →
    Within env sourceId url g a n m (.await op k)

/-- What holds of a call running alone: the URL of `sourceId` is kept, the effects so far
and the budget of what is left add up to at most one `ADD_SOURCE`, one reformat call and
one mapping bind, and once `ADD_SOURCE` has been dispatched a source is registered for
`url`. -/
def AloneInv {X M R α : Type} (env : Env X M R) (sourceId url : String)
    (c : Prog X M R α × World X M) : Prop :=
  UrlStable env sourceId url c.2.store ∧
  (1 ≤ c.2.trace.countP Event.isAddSource → Registered url c.2.store) ∧
  ∃ a n m, Within env sourceId url false a n m c.1 ∧
    c.2.trace.countP Event.isAddSource + a ≤ 1 ∧
    c.2.trace.countP Event.isReformat + n ≤ 1 ∧
    c.2.trace.countP Event.isBind + m ≤ 1

/-- What holds of two calls in flight when the second was issued after the first had
dispatched `ADD_SOURCE`: a source stays registered for `url`, the first call stays within
what is left of its budget, the second has none. -/
def PairInv {X M R α : Type} (env : Env X M R) (sourceId url : String)
    (c : Pair X M R α) : Prop :=
  UrlStable env sourceId url c.world.store ∧
  Registered url c.world.store ∧
  1 ≤ c.world.trace.countP Event.isAddSource ∧
  (∃ a n m, Within env sourceId url true a n m c.first ∧
    c.world.trace.countP Event.isAddSource + a ≤ 1 ∧
    c.world.trace.countP Event.isReformat + n ≤ 1 ∧
    c.world.trace.countP Event.isBind + m ≤ 1) ∧
  Within env sourceId url true 0 0 0 c.second

/-! ## Basic facts about runs -/

theorem getSource_id {X : Type} {st : Store X} {i : String} {s : Source}
    (h : getSource st i = some s) : s.id = i := by
  have := List.find?_some h
  simpa using this

@[simp] theorem Outcome.prepend_result {X M α : Type} (t : List (Event M))
    (o : Outcome X M α) : (o.prepend t).result = o.result := rfl

@[simp] theorem Outcome.prepend_store {X M α : Type} (t : List (Event M))
    (o : Outcome X M α) : (o.prepend t).store = o.store := rfl

@[simp] theorem Outcome.prepend_trace {X M α : Type} (t : List (Event M))
    (o : Outcome X M α) : (o.prepend t).trace = t ++ o.trace := rfl

@[simp] theorem Outcome.after_result {X M α : Type} (ev : Event M) (o : Outcome X M α) :
    (o.after ev).result = o.result := rfl

@[simp] theorem Outcome.after_store {X M α : Type} (ev : Event M) (o : Outcome X M α) :
    (o.after ev).store = o.store := rfl

@[simp] theorem Outcome.after_trace {X M α : Type} (ev : Event M) (o : Outcome X M α) :
    (o.after ev).trace = ev :: o.trace := rfl

theorem run_ret {X M R α : Type} (env : Env X M R) (a : α) (st : Store X) :
    (Prog.ret a : Prog X M R α).run env st = { result := .ok a, store := st, trace := [] } := rfl

theorem run_throw {X M R α : Type} (env : Env X M R) (e : Err) (st : Store X) :
    (Prog.throw e : Prog X M R α).run env st =
      { result := .error e, store := st, trace := [] } := rfl

theorem run_getState {X M R α : Type} (env : Env X M R) (k : Store X → Prog X M R α)
    (st : Store X) : (Prog.getState k).run env st = (k st).run env st := rfl

theorem run_dispatch {X M R α : Type} (env : Env X M R) (a : Action) (k : Prog X M R α)
    (st : Store X) :
    (Prog.dispatch a k).run env st = (k.run env (reducer a st)).after (.dispatch a) := rfl

theorem run_setSource {X M R α : Type} (env : Env X M R) (s : Source) (k : Prog X M R α)
    (st : Store X) :
    (Prog.setSource s k).run env st =
      (k.run env { st with ext := env.setSource s st.ext }).after (.setSource s) := rfl

theorem run_await {X M R α : Type} (env : Env X M R) (op : Op M)
    (k : op.Res R → Prog X M R α) (st : Store X) :
    (Prog.await op k).run env st =
      match (env.perform op st).1 with
      | .ok v => ((k v).run env (env.perform op st).2).after (.call op true)
      | .error e =>
        { result := .error (.rejected e), store := (env.perform op st).2,
          trace := [.call op false] } := by
  simp only [Prog.run]

theorem Outcome.ext_iff3 {X M α : Type} (o o2 : Outcome X M α) :
    o = o2 ↔ o.result = o2.result ∧ o.store = o2.store ∧ o.trace = o2.trace := by
  cases o; cases o2; simp

theorem run_bind {X M R α β : Type} (env : Env X M R) (p : Prog X M R α)
    (f : α → Prog X M R β) (st : Store X) :
    (p.bind f).run env st =
      match (p.run env st).result with
      | .ok a => ((f a).run env (p.run env st).store).prepend (p.run env st).trace
      | .error e =>
        { result := .error e, store := (p.run env st).store, trace := (p.run env st).trace } := by
  induction p generalizing st with
  | ret a => simp [Prog.bind, Prog.run, Outcome.ext_iff3]
  | throw e => simp [Prog.bind, Prog.run]
  | getState k ih => simp [Prog.bind, Prog.run, ih]
  | dispatch a k ih =>
    simp only [Prog.bind, Prog.run, ih, Outcome.after_result, Outcome.after_store]
    split <;> simp [Outcome.ext_iff3]
  | setSource s k ih =>
    simp only [Prog.bind, Prog.run, ih, Outcome.after_result, Outcome.after_store]
    split <;> simp [Outcome.ext_iff3]
  | await op k ih =>
    simp only [Prog.bind, Prog.run]
    cases h : (env.perform op st).1 with
    | error e => simp
    | ok v =>
      simp only [ih, Outcome.after_result, Outcome.after_store]
      split <;> simp [Outcome.ext_iff3]

theorem run_await_ok {X M R α : Type} (env : Env X M R) (op : Op M)
    (k : op.Res R → Prog X M R α) (st : Store X) (r : α)
    (hok : ((Prog.await op k).run env st).result = .ok r) :
    ∃ v, (env.perform op st).1 = .ok v ∧
      (Prog.await op k).run env st =
        ((k v).run env (env.perform op st).2).after (.call op true) := by
  simp only [Prog.run] at hok ⊢
  split at hok
  · rename_i v hv
    exact ⟨v, hv, by simp [hv]⟩
  · simp at hok

theorem run_bind_ok {X M R α β : Type} (env : Env X M R) (p : Prog X M R α)
    (f : α → Prog X M R β) (st : Store X) (r : β)
    (hok : ((p.bind f).run env st).result = .ok r) :
    ∃ a, (p.run env st).result = .ok a ∧
      (p.bind f).run env st =
        ((f a).run env (p.run env st).store).prepend (p.run env st).trace := by
  rw [run_bind] at hok ⊢
  split at hok
  · rename_i a ha
    exact ⟨a, ha, by simp [ha]⟩
  · simp at hok


/-! ## The shape of a run of `togglePrettyPrint` -/

theorem loadIfNeeded_run {X M R : Type} (env : Env X M R) (source : Source) (st : Store X) :
    (loadIfNeeded source : Prog X M R Unit).run env st =
      if isLoaded source then { result := .ok (), store := st, trace := [] }
      else match (env.loadSourceText source st).1 with
        | .ok _ => { result := .ok (), store := (env.loadSourceText source st).2,
                     trace := [.call (.loadSourceText source) true] }
        | .error e => { result := .error (.rejected e), store := (env.loadSourceText source st).2,
                        trace := [.call (.loadSourceText source) false] } := by
  unfold loadIfNeeded
  cases hl : isLoaded source
  · simp only [Bool.not_false, if_true, run_await, Env.perform, Bool.false_eq_true, if_false]
    cases hc : (env.loadSourceText source st).1 <;> simp [run_ret, Outcome.after]
  · simp [run_ret]

theorem translateSelected_run {X M R : Type} (env : Env X M R) (st : Store X) :
    (translateSelected (getSelectedLocation st) : Prog X M R (Option Location)).run env st =
      match getSelectedLocation st with
      | none => { result := .ok none, store := st, trace := [] }
      | some l =>
        match (env.getOriginalLocation l st.ext).1 with
        | .ok loc => { result := .ok (some loc), store := afterTranslate env st,
                       trace := [.call (.getOriginalLocation l) true] }
        | .error e => { result := .error (.rejected e), store := afterTranslate env st,
                        trace := [.call (.getOriginalLocation l) false] } := by
  unfold translateSelected
  cases hs : getSelectedLocation st with
  | none => simp [run_ret]
  | some l =>
    simp only [run_await, Env.perform, onExt, afterTranslate, hs]
    cases hc : (env.getOriginalLocation l st.ext).1 <;> simp [run_ret, Outcome.after]

theorem translated_none {X M R : Type} (env : Env X M R) (st : Store X)
    (hs : getSelectedLocation st = none) : translated env st = none := by
  simp [translated, hs]

theorem translated_some {X M R : Type} (env : Env X M R) (st : Store X) (l loc : Location)
    (hs : getSelectedLocation st = some l)
    (ho : (env.getOriginalLocation l st.ext).1 = .ok loc) : translated env st = some loc := by
  simp [translated, hs, ho]

theorem afterTranslate_none {X M R : Type} (env : Env X M R) (st : Store X)
    (hs : getSelectedLocation st = none) : afterTranslate env st = st := by
  simp [afterTranslate, hs]

theorem preamble_none {X M R : Type} (env : Env X M R) (source : Source) (st : Store X)
    (hs : getSelectedLocation (afterLoad env source st) = none) :
    preamble env source st = loadTrace source := by
  simp [preamble, loadTrace, hs]

theorem preamble_some {X M R : Type} (env : Env X M R) (source : Source) (st : Store X)
    (l : Location) (hs : getSelectedLocation (afterLoad env source st) = some l) :
    preamble env source st = loadTrace source ++ [.call (.getOriginalLocation l) true] := by
  simp [preamble, loadTrace, hs]

theorem toggle_unregistered {X M R : Type} (env : Env X M R) (st : Store X)
    (sourceId : String) (hsrc : getSource st sourceId = none) :
    (togglePrettyPrint env sourceId).run env st =
      { result := .ok .empty, store := st, trace := [] } := by
  simp [togglePrettyPrint, run_getState, hsrc, run_ret]

theorem toggle_shape {X M R : Type} (env : Env X M R) (st : Store X)
    (sourceId : String) (source : Source) (hsrc : getSource st sourceId = some source) :
    (isLoaded source = false ∧ ∃ e, (env.loadSourceText source st).1 = .error e ∧
      (togglePrettyPrint env sourceId).run env st =
        { result := .error (.rejected e), store := (env.loadSourceText source st).2,
          trace := [.call (.loadSourceText source) false] }) ∨
    (isLoaded source = true ∨ (env.loadSourceText source st).1 = .ok ()) ∧
    ((env.isGeneratedId sourceId = false ∧
      (togglePrettyPrint env sourceId).run env st =
        { result := .error (.assertion "Pretty-printing only allowed on generated sources"),
          store := afterLoad env source st, trace := loadTrace source }) ∨
    env.isGeneratedId sourceId = true ∧
    ((∃ l e,
      getSelectedLocation (afterLoad env source st) = some l ∧
      (env.getOriginalLocation l (afterLoad env source st).ext).1 = .error e ∧
      (togglePrettyPrint env sourceId).run env st =
        { result := .error (.rejected e), store := afterTranslate env (afterLoad env source st),
          trace := loadTrace source ++ [.call (.getOriginalLocation l) false] }) ∨
    (∀ l, getSelectedLocation (afterLoad env source st) = some l →
      ∃ loc, (env.getOriginalLocation l (afterLoad env source st).ext).1 = .ok loc) ∧
    ((∃ p,
      getSourceByURL (afterLoad env source st) (env.getPrettySourceURL source.url) = some p ∧
      (togglePrettyPrint env sourceId).run env st =
        ((reusePath (translated env (afterLoad env source st)) p).run env
          (afterTranslate env (afterLoad env source st))).prepend (preamble env source st)) ∨
    (getSourceByURL (afterLoad env source st) (env.getPrettySourceURL source.url) = none ∧
      (togglePrettyPrint env sourceId).run env st =
        ((creationPath env sourceId (translated env (afterLoad env source st))).run env
          (afterTranslate env (afterLoad env source st))).prepend
            (preamble env source st))))) := by
  simp only [togglePrettyPrint, run_getState, hsrc, run_bind, loadIfNeeded_run]
  by_cases hload : isLoaded source = false ∧ ∃ e, (env.loadSourceText source st).1 = .error e
  · obtain ⟨hl, e, he⟩ := hload
    left
    refine ⟨hl, e, he, ?_⟩
    simp [hl, he]
  right
  refine ⟨?_, ?_⟩
  · cases hl : isLoaded source
    · cases he : (env.loadSourceText source st).1 with
      | error e => exact absurd ⟨hl, e, he⟩ hload
      | ok u => exact Or.inr rfl
    · exact Or.inl rfl
  have hrun : (if isLoaded source = true then
        ({ result := .ok (), store := st, trace := [] } : Outcome X M Unit)
      else match (env.loadSourceText source st).1 with
        | .ok _ => { result := .ok (), store := (env.loadSourceText source st).2,
                     trace := [.call (.loadSourceText source) true] }
        | .error e => { result := .error (.rejected e), store := (env.loadSourceText source st).2,
                        trace := [.call (.loadSourceText source) false] }) =
      { result := .ok (), store := afterLoad env source st, trace := loadTrace source } := by
    cases hl : isLoaded source
    · cases he : (env.loadSourceText source st).1 with
      | error e => exact absurd ⟨hl, e, he⟩ hload
      | ok u => simp [afterLoad, loadTrace, hl]
    · simp [afterLoad, loadTrace, hl]
  rw [hrun]
  simp only [Outcome.prepend]
  cases hg : env.isGeneratedId sourceId
  · left
    simp [assert, run_throw]
  right
  refine ⟨rfl, ?_⟩
  simp only [assert, if_true, run_getState, run_bind, translateSelected_run]
  cases hs : getSelectedLocation (afterLoad env source st) with
  | none =>
    right
    refine ⟨fun l hl => (by cases hl), ?_⟩
    simp only [Outcome.prepend]
    cases hp : getSourceByURL (afterLoad env source st) (env.getPrettySourceURL source.url) with
    | none =>
      right
      rw [translated_none env _ hs, afterTranslate_none env _ hs, preamble_none env _ _ hs]
      simp [creationPath]
    | some p =>
      left
      rw [translated_none env _ hs, afterTranslate_none env _ hs, preamble_none env _ _ hs]
      simp [reusePath]
  | some l =>
    cases ho : (env.getOriginalLocation l (afterLoad env source st).ext).1 with
    | error e =>
      left
      exact ⟨l, e, rfl, ho, by simp [ho]⟩
    | ok loc =>
      right
      refine ⟨fun l2 hl2 => (by cases hl2; exact ⟨loc, ho⟩), ?_⟩
      simp only [ho, Outcome.prepend]
      cases hp : getSourceByURL (afterLoad env source st) (env.getPrettySourceURL source.url) with
      | none =>
        right
        rw [translated_some env _ l loc hs ho, preamble_some env _ _ l hs]
        simp [creationPath]
      | some p =>
        left
        rw [translated_some env _ l loc hs ho, preamble_some env _ _ l hs]
        simp [reusePath]

/-! ## The shape of a run of `createPrettySource` -/

theorem createPrettySource_unregistered {X M R : Type} (env : Env X M R) (st : Store X)
    (sourceId : String) (hsrc : getSource st sourceId = none) :
    (createPrettySource env sourceId).run env st =
      { result := .error (.typeError "source is undefined"), store := st, trace := [] } := by
  simp [createPrettySource, run_getState, hsrc, run_throw]

theorem createPrettySource_shape {X M R : Type} (env : Env X M R) (st : Store X)
    (sourceId : String) (source : Source) (hsrc : getSource st sourceId = some source) :
    (∃ e, (env.generatedToOriginalId sourceId (env.getPrettySourceURL source.url) st.ext).1
        = .error e ∧
      (createPrettySource env sourceId).run env st =
        { result := .error (.rejected e),
          store := { st with ext := (env.generatedToOriginalId sourceId
                      (env.getPrettySourceURL source.url) st.ext).2 },
          trace := [.call (.generatedToOriginalId sourceId
                      (env.getPrettySourceURL source.url)) false] }) ∨
    (∃ d, (env.generatedToOriginalId sourceId (env.getPrettySourceURL source.url) st.ext).1
        = .ok d ∧
      ((∃ e, (env.prettyPrint source (env.getPrettySourceURL source.url)
            (env.generatedToOriginalId sourceId (env.getPrettySourceURL source.url)
              st.ext).2).1 = .error e ∧
        (createPrettySource env sourceId).run env st =
          { result := .error (.rejected e),
            store :=
              { sources := upsert (placeholder (env.getPrettySourceURL source.url) d) st.sources,
                selectedLocation := st.selectedLocation,
                ext := (env.prettyPrint source (env.getPrettySourceURL source.url)
                  (env.generatedToOriginalId sourceId (env.getPrettySourceURL source.url)
                    st.ext).2).2 },
            trace :=
              [ .call (.generatedToOriginalId sourceId (env.getPrettySourceURL source.url)) true,
                .dispatch (.ADD_SOURCE (placeholder (env.getPrettySourceURL source.url) d)),
                .call (.prettyPrint source (env.getPrettySourceURL source.url)) false ] }) ∨
       (∃ code m, (env.prettyPrint source (env.getPrettySourceURL source.url)
            (env.generatedToOriginalId sourceId (env.getPrettySourceURL source.url)
              st.ext).2).1 = .ok (code, m) ∧
          ((∃ e, (env.applySourceMap sourceId (env.getPrettySourceURL source.url) code m
              (env.prettyPrint source (env.getPrettySourceURL source.url)
                (env.generatedToOriginalId sourceId (env.getPrettySourceURL source.url)
                  st.ext).2).2).1 = .error e ∧
            (createPrettySource env sourceId).run env st =
              { result := .error (.rejected e),
                store :=
                  { sources :=
                      upsert (placeholder (env.getPrettySourceURL source.url) d) st.sources,
                    selectedLocation := st.selectedLocation,
                    ext := (env.applySourceMap sourceId (env.getPrettySourceURL source.url)
                      code m (env.prettyPrint source (env.getPrettySourceURL source.url)
                        (env.generatedToOriginalId sourceId
                          (env.getPrettySourceURL source.url) st.ext).2).2).2 },
                trace :=
                  [ .call (.generatedToOriginalId sourceId
                      (env.getPrettySourceURL source.url)) true,
                    .dispatch (.ADD_SOURCE (placeholder (env.getPrettySourceURL source.url) d)),
                    .call (.prettyPrint source (env.getPrettySourceURL source.url)) true,
                    .call (.applySourceMap sourceId (env.getPrettySourceURL source.url)
                      code m) false ] }) ∨
           ((env.applySourceMap sourceId (env.getPrettySourceURL source.url) code m
              (env.prettyPrint source (env.getPrettySourceURL source.url)
                (env.generatedToOriginalId sourceId (env.getPrettySourceURL source.url)
                  st.ext).2).2).1 = .ok () ∧
            (createPrettySource env sourceId).run env st =
              { result := .ok (placeholder (env.getPrettySourceURL source.url) d),
                store :=
                  { sources :=
                      upsert (loadedPretty (env.getPrettySourceURL source.url) d code)
                        (upsert (placeholder (env.getPrettySourceURL source.url) d) st.sources),
                    selectedLocation := st.selectedLocation,
                    ext := env.setSource (loadedPretty (env.getPrettySourceURL source.url) d code)
                      (env.applySourceMap sourceId (env.getPrettySourceURL source.url)
                        code m (env.prettyPrint source (env.getPrettySourceURL source.url)
                          (env.generatedToOriginalId sourceId
                            (env.getPrettySourceURL source.url) st.ext).2).2).2 },
                trace :=
                  [ .call (.generatedToOriginalId sourceId
                      (env.getPrettySourceURL source.url)) true,
                    .dispatch (.ADD_SOURCE (placeholder (env.getPrettySourceURL source.url) d)),
                    .call (.prettyPrint source (env.getPrettySourceURL source.url)) true,
                    .call (.applySourceMap sourceId (env.getPrettySourceURL source.url)
                      code m) true,
                    .setSource (loadedPretty (env.getPrettySourceURL source.url) d code),
                    .dispatch (.UPDATE_SOURCE
                      (loadedPretty (env.getPrettySourceURL source.url) d code)) ] }))))) := by
  have hid := getSource_id hsrc
  simp only [createPrettySource, run_getState, hsrc, run_await, run_dispatch, run_setSource,
    run_ret, Env.perform, onExt, hid, Outcome.after, reducer, Action.source]
  cases hd : (env.generatedToOriginalId sourceId (env.getPrettySourceURL source.url) st.ext).1 with
  | error e => left; exact ⟨e, rfl, rfl⟩
  | ok d =>
    right
    refine ⟨d, rfl, ?_⟩
    simp only []
    cases hp : (env.prettyPrint source (env.getPrettySourceURL source.url)
        (env.generatedToOriginalId sourceId (env.getPrettySourceURL source.url) st.ext).2).1 with
    | error e => left; exact ⟨e, rfl, rfl⟩
    | ok r =>
      right
      refine ⟨r.1, r.2, rfl, ?_⟩
      simp only []
      cases ha : (env.applySourceMap sourceId (env.getPrettySourceURL source.url) r.1 r.2
          (env.prettyPrint source (env.getPrettySourceURL source.url)
            (env.generatedToOriginalId sourceId (env.getPrettySourceURL source.url)
              st.ext).2).2).1 with
      | error e => left; exact ⟨e, rfl, rfl⟩
      | ok u => right; exact ⟨rfl, rfl⟩

/-! ## The two paths -/

theorem run_failed {X M R α : Type} (env : Env X M R) (p : Prog X M R α) (st : Store X)
    (op : Op M) (h : Event.call op false ∈ (p.run env st).trace) :
    ∃ e, (p.run env st).result = .error (.rejected e) := by
  induction p generalizing st with
  | ret a => simp [run_ret] at h
  | throw e => simp [run_throw] at h
  | getState k ih => exact ih _ st h
  | dispatch a k ih =>
    simp only [run_dispatch, Outcome.after_trace, List.mem_cons] at h
    rcases h with h | h
    · cases h
    · simpa [run_dispatch] using ih _ h
  | setSource s k ih =>
    simp only [run_setSource, Outcome.after_trace, List.mem_cons] at h
    rcases h with h | h
    · cases h
    · simpa [run_setSource] using ih _ h
  | await op2 k ih =>
    rw [run_await] at h ⊢
    cases hc : (env.perform op2 st).1 with
    | error e => exact ⟨e, rfl⟩
    | ok v =>
      simp only [hc, Outcome.after_trace, List.mem_cons] at h
      rcases h with h | h
      · cases h
      · simpa using ih v _ h

theorem creationPath_eq {X M R : Type} (env : Env X M R) (sourceId : String)
    (location : Option Location) :
    creationPath env sourceId location =
      (createPrettySource env sourceId).bind (remapAndSelect sourceId location) := rfl

theorem remapAndSelect_events {X M R : Type} (env : Env X M R) (sourceId : String)
    (location : Option Location) (p : Source) (st : Store X) :
    ∀ ev ∈ ((remapAndSelect sourceId location p : Prog X M R (ToggleResult R)).run env st).trace,
      ev.isRemapStep = true ∨ ev.isSelectLocation = true := by
  intro ev hev
  simp only [remapAndSelect, run_await, run_ret] at hev
  cases h1 : (env.perform (Op.remapBreakpoints sourceId) st).1 with
  | error e => simp [h1] at hev; simp [hev, Event.isRemapStep]
  | ok v1 =>
    simp only [h1, Outcome.after_trace, List.mem_cons] at hev
    rcases hev with hev | hev
    · simp [hev, Event.isRemapStep]
    cases h2 : (env.perform Op.mapFrames (env.perform (Op.remapBreakpoints sourceId) st).2).1 with
    | error e => simp [h2] at hev; simp [hev, Event.isRemapStep]
    | ok v2 =>
      simp only [h2, Outcome.after_trace, List.mem_cons] at hev
      rcases hev with hev | hev
      · simp [hev, Event.isRemapStep]
      cases h3 : (env.perform (Op.setPausePoints p.id)
          (env.perform Op.mapFrames (env.perform (Op.remapBreakpoints sourceId) st).2).2).1 with
      | error e => simp [h3] at hev; simp [hev, Event.isRemapStep]
      | ok v3 =>
        simp only [h3, Outcome.after_trace, List.mem_cons] at hev
        rcases hev with hev | hev
        · simp [hev, Event.isRemapStep]
        cases h4 : (env.perform (Op.setSymbols p.id) (env.perform (Op.setPausePoints p.id)
            (env.perform Op.mapFrames
              (env.perform (Op.remapBreakpoints sourceId) st).2).2).2).1 with
        | error e => simp [h4] at hev; simp [hev, Event.isRemapStep]
        | ok v4 =>
          simp only [h4, Outcome.after_trace, List.mem_cons] at hev
          rcases hev with hev | hev
          · simp [hev, Event.isRemapStep]
          cases h5 : (env.perform (Op.selectLocation (spreadLocation location p.id))
              (env.perform (Op.setSymbols p.id) (env.perform (Op.setPausePoints p.id)
                (env.perform Op.mapFrames
                  (env.perform (Op.remapBreakpoints sourceId) st).2).2).2).2).1 with
          | error e => simp [h5] at hev; simp [hev, Event.isSelectLocation]
          | ok v5 =>
            simp [h5] at hev
            simp [hev, Event.isSelectLocation]

theorem reusePath_run {X M R : Type} (env : Env X M R) (location : Option Location)
    (p : Source) (st : Store X) :
    (reusePath location p : Prog X M R (ToggleResult R)).run env st =
      match (env.selectLocation (spreadLocation location p.id) st).1 with
      | .ok v =>
        { result := .ok (.selected v),
          store := (env.selectLocation (spreadLocation location p.id) st).2,
          trace := [.call (.selectLocation (spreadLocation location p.id)) true] }
      | .error e =>
        { result := .error (.rejected e),
          store := (env.selectLocation (spreadLocation location p.id) st).2,
          trace := [.call (.selectLocation (spreadLocation location p.id)) false] } := by
  simp only [reusePath, run_await, run_ret, Env.perform]
  cases hc : (env.selectLocation (spreadLocation location p.id) st).1 <;> simp [Outcome.after]

theorem preamble_events {X M R : Type} (env : Env X M R) (source : Source) (st : Store X) :
    ∀ ev ∈ preamble env source st,
      ev = .call (.loadSourceText source) true ∨ ∃ l, ev = .call (.getOriginalLocation l) true := by
  intro ev hev
  simp only [preamble, List.mem_append] at hev
  rcases hev with hev | hev
  · split at hev
    · simp at hev
    · simp at hev; exact Or.inl hev
  · split at hev
    · simp at hev
    · simp at hev; exact Or.inr ⟨_, hev⟩

theorem loadTrace_events {M : Type} (source : Source) :
    ∀ ev ∈ (loadTrace source : List (Event M)), ev = .call (.loadSourceText source) true := by
  intro ev hev
  simp only [loadTrace] at hev
  split at hev
  · simp at hev
  · simpa using hev

theorem remapAndSelect_ok {X M R : Type} (env : Env X M R) (sourceId : String)
    (location : Option Location) (p : Source) (st : Store X) (r : ToggleResult R)
    (hok : ((remapAndSelect sourceId location p : Prog X M R (ToggleResult R)).run env
      st).result = .ok r) :
    ∃ v, (env.selectLocation (spreadLocation location p.id) (afterRemap env sourceId p st)).1
        = .ok v ∧
      (remapAndSelect sourceId location p : Prog X M R (ToggleResult R)).run env st =
        { result := .ok (.selected v),
          store := (env.selectLocation (spreadLocation location p.id)
            (afterRemap env sourceId p st)).2,
          trace :=
            [ .call (.remapBreakpoints sourceId) true,
              .call .mapFrames true,
              .call (.setPausePoints p.id) true,
              .call (.setSymbols p.id) true,
              .call (.selectLocation (spreadLocation location p.id)) true ] } := by
  unfold remapAndSelect at hok ⊢
  obtain ⟨v1, hv1, e1⟩ := run_await_ok env _ _ _ r hok
  rw [e1] at hok ⊢
  simp only [Outcome.after_result] at hok
  obtain ⟨v2, hv2, e2⟩ := run_await_ok env _ _ _ r hok
  rw [e2] at hok ⊢
  simp only [Outcome.after_result] at hok
  obtain ⟨v3, hv3, e3⟩ := run_await_ok env _ _ _ r hok
  rw [e3] at hok ⊢
  simp only [Outcome.after_result] at hok
  obtain ⟨v4, hv4, e4⟩ := run_await_ok env _ _ _ r hok
  rw [e4] at hok ⊢
  simp only [Outcome.after_result] at hok
  obtain ⟨v5, hv5, e5⟩ := run_await_ok env _ _ _ r hok
  rw [e5] at hok ⊢
  exact ⟨v5, hv5, rfl⟩

theorem getSource_afterTranslate {X M R : Type} (env : Env X M R) (st : Store X)
    (i : String) : getSource (afterTranslate env st) i = getSource st i := by
  unfold afterTranslate getSource
  split <;> rfl

theorem toggle_creation {X M R : Type} (env : Env X M R) (st : Store X)
    (sourceId : String) (source : Source) (r : ToggleResult R)
    (hsrc : getSource st sourceId = some source)
    (hnone : getSourceByURL (afterLoad env source st) (env.getPrettySourceURL source.url) = none)
    (hok : ((togglePrettyPrint env sourceId).run env st).result = .ok r) :
    ∃ (source2 : Source) (d code : String) (m : M) (v : R),
      getSource (afterLoad env source st) sourceId = some source2 ∧
      (env.generatedToOriginalId sourceId (env.getPrettySourceURL source2.url)
        (afterTranslate env (afterLoad env source st)).ext).1 = .ok d ∧
      (env.prettyPrint source2 (env.getPrettySourceURL source2.url)
        (env.generatedToOriginalId sourceId (env.getPrettySourceURL source2.url)
          (afterTranslate env (afterLoad env source st)).ext).2).1 = .ok (code, m) ∧
      ((createPrettySource env sourceId).run env
        (afterTranslate env (afterLoad env source st))).result
          = .ok (placeholder (env.getPrettySourceURL source2.url) d) ∧
      ((createPrettySource env sourceId).run env
        (afterTranslate env (afterLoad env source st))).store.sources =
          upsert (loadedPretty (env.getPrettySourceURL source2.url) d code)
            (upsert (placeholder (env.getPrettySourceURL source2.url) d)
              (afterLoad env source st).sources) ∧
      (env.selectLocation (spreadLocation (translated env (afterLoad env source st)) d)
        (afterRemap env sourceId (placeholder (env.getPrettySourceURL source2.url) d)
          ((createPrettySource env sourceId).run env
            (afterTranslate env (afterLoad env source st))).store)).1 = .ok v ∧
      (togglePrettyPrint env sourceId).run env st =
        { result := .ok (.selected v),
          store :=
            (env.selectLocation (spreadLocation (translated env (afterLoad env source st)) d)
              (afterRemap env sourceId (placeholder (env.getPrettySourceURL source2.url) d)
                ((createPrettySource env sourceId).run env
                  (afterTranslate env (afterLoad env source st))).store)).2,
          trace := preamble env source st ++
            [ .call (.generatedToOriginalId sourceId (env.getPrettySourceURL source2.url)) true,
              .dispatch (.ADD_SOURCE (placeholder (env.getPrettySourceURL source2.url) d)),
              .call (.prettyPrint source2 (env.getPrettySourceURL source2.url)) true,
              .call (.applySourceMap sourceId (env.getPrettySourceURL source2.url) code m) true,
              .setSource (loadedPretty (env.getPrettySourceURL source2.url) d code),
              .dispatch (.UPDATE_SOURCE
                (loadedPretty (env.getPrettySourceURL source2.url) d code)),
              .call (.remapBreakpoints sourceId) true,
              .call .mapFrames true,
              .call (.setPausePoints d) true,
              .call (.setSymbols d) true,
              .call (.selectLocation
                (spreadLocation (translated env (afterLoad env source st)) d)) true ] } := by
  rcases toggle_shape env st sourceId source hsrc with
    ⟨_, e, _, h⟩ | ⟨_, ⟨_, h⟩ | ⟨_, ⟨l, e, _, _, h⟩ | ⟨_, ⟨p, hp, _⟩ | ⟨_, h⟩⟩⟩⟩
  · rw [h] at hok; simp at hok
  · rw [h] at hok; simp at hok
  · rw [h] at hok; simp at hok
  · rw [hnone] at hp; cases hp
  rw [h] at hok ⊢
  simp only [Outcome.prepend_result, creationPath_eq] at hok
  obtain ⟨p, hp, heq⟩ := run_bind_ok env _ _ _ r hok
  rw [creationPath_eq, heq]
  rw [heq] at hok
  simp only [Outcome.prepend_result] at hok
  cases hs2 : getSource (afterTranslate env (afterLoad env source st)) sourceId with
  | none =>
    rw [createPrettySource_unregistered env _ sourceId hs2] at hp
    simp at hp
  | some source2 =>
    rcases createPrettySource_shape env _ sourceId source2 hs2 with
      ⟨e, _, hc⟩ | ⟨d, hd, ⟨e, _, hc⟩ | ⟨code, m, hpp, ⟨e, _, hc⟩ | ⟨_, hc⟩⟩⟩
    · rw [hc] at hp; simp at hp
    · rw [hc] at hp; simp at hp
    · rw [hc] at hp; simp at hp
    have hpe : p = placeholder (env.getPrettySourceURL source2.url) d := by
      rw [hc] at hp
      simpa using hp.symm
    subst hpe
    obtain ⟨v, hv, hrs⟩ := remapAndSelect_ok env sourceId _ _ _ r hok
    rw [getSource_afterTranslate] at hs2
    refine ⟨source2, d, code, m, v, hs2, hd, hpp, hp, ?_, hv, ?_⟩
    · rw [hc]
      simp [afterTranslate]
      split <;> rfl
    · rw [hrs, hc]
      simp [Outcome.prepend, placeholder]

theorem toggle_reuse {X M R : Type} (env : Env X M R) (st : Store X)
    (sourceId : String) (source p : Source) (r : ToggleResult R)
    (hsrc : getSource st sourceId = some source)
    (hsome : getSourceByURL (afterLoad env source st) (env.getPrettySourceURL source.url)
      = some p)
    (hok : ((togglePrettyPrint env sourceId).run env st).result = .ok r) :
    ∃ v : R,
      (env.selectLocation (spreadLocation (translated env (afterLoad env source st)) p.id)
        (afterTranslate env (afterLoad env source st))).1 = .ok v ∧
      (togglePrettyPrint env sourceId).run env st =
        { result := .ok (.selected v),
          store :=
            (env.selectLocation (spreadLocation (translated env (afterLoad env source st)) p.id)
              (afterTranslate env (afterLoad env source st))).2,
          trace := preamble env source st ++
            [ .call (.selectLocation
                (spreadLocation (translated env (afterLoad env source st)) p.id)) true ] } := by
  rcases toggle_shape env st sourceId source hsrc with
    ⟨_, e, _, h⟩ | ⟨_, ⟨_, h⟩ | ⟨_, ⟨l, e, _, _, h⟩ | ⟨_, ⟨p2, hp, h⟩ | ⟨hn, _⟩⟩⟩⟩
  · rw [h] at hok; simp at hok
  · rw [h] at hok; simp at hok
  · rw [h] at hok; simp at hok
  · rw [hsome] at hp
    cases hp
    rw [h] at hok ⊢
    rw [reusePath_run] at hok ⊢
    cases hc : (env.selectLocation (spreadLocation (translated env (afterLoad env source st)) p.id)
        (afterTranslate env (afterLoad env source st))).1 with
    | error e => simp [hc] at hok
    | ok v => exact ⟨v, rfl, by simp [Outcome.prepend]⟩
  · rw [hsome] at hn; cases hn

theorem translated_cases {X M R : Type} (env : Env X M R) (st : Store X) (i : String)
    (htr : ∀ l, getSelectedLocation st = some l →
      ∃ loc, (env.getOriginalLocation l st.ext).1 = .ok loc) :
    (getSelectedLocation st = none →
      spreadLocation (translated env st) i = { sourceId := i, line := none, column := none }) ∧
    (∀ l, getSelectedLocation st = some l →
      ∃ loc, (env.getOriginalLocation l st.ext).1 = .ok loc ∧
        spreadLocation (translated env st) i =
          { sourceId := i, line := some loc.line, column := loc.column }) := by
  constructor
  · intro hs
    rw [translated_none env st hs]
    rfl
  · intro l hs
    obtain ⟨loc, hloc⟩ := htr l hs
    refine ⟨loc, hloc, ?_⟩
    rw [translated_some env st l loc hs hloc]
    rfl

theorem toggle_ok_translated {X M R : Type} (env : Env X M R) (st : Store X)
    (sourceId : String) (source : Source) (r : ToggleResult R)
    (hsrc : getSource st sourceId = some source)
    (hok : ((togglePrettyPrint env sourceId).run env st).result = .ok r) :
    ∀ l, getSelectedLocation (afterLoad env source st) = some l →
      ∃ loc, (env.getOriginalLocation l (afterLoad env source st).ext).1 = .ok loc := by
  intro l hl
  cases hc : (env.getOriginalLocation l (afterLoad env source st).ext).1 with
  | ok loc => exact ⟨loc, rfl⟩
  | error e =>
    exfalso
    rcases toggle_shape env st sourceId source hsrc with
      ⟨_, e, _, h⟩ | ⟨_, ⟨_, h⟩ | ⟨_, ⟨l2, e2, _, _, h⟩ | ⟨htr, _⟩⟩⟩
    · rw [h] at hok; simp at hok
    · rw [h] at hok; simp at hok
    · rw [h] at hok; simp at hok
    · obtain ⟨loc, hloc⟩ := htr l hl
      rw [hc] at hloc
      cases hloc

/-! ## The registry -/

theorem find_upsert_self (s : Source) (l : List Source) :
    (upsert s l).find? (fun t => t.id == s.id) = some s := by
  induction l with
  | nil => simp [upsert]
  | cons t ts ih =>
    by_cases ht : t.id = s.id
    · simp [upsert, ht]
    · simp [upsert, ht, ih]

theorem getSource_upsert_self {X : Type} (st : Store X) (s : Source) (l : List Source)
    (h : st.sources = upsert s l) : getSource st s.id = some s := by
  unfold getSource
  rw [h]
  exact find_upsert_self s l

theorem find_upsert_other (s : Source) (l : List Source) (i : String) (h : s.id ≠ i) :
    (upsert s l).find? (fun t => t.id == i) = l.find? (fun t => t.id == i) := by
  induction l with
  | nil => simp [upsert, h]
  | cons t ts ih =>
    by_cases ht : t.id = s.id
    · have hti : t.id ≠ i := by rw [ht]; exact h
      simp [upsert, ht, h, hti]
    · by_cases hti : t.id = i
      · have hne : ¬ i = s.id := fun hh => h hh.symm
        simp [upsert, hti, hne]
      · simp [upsert, ht, hti, ih]

theorem mem_upsert_self (s : Source) (l : List Source) : s ∈ upsert s l := by
  induction l with
  | nil => simp [upsert]
  | cons t ts ih =>
    by_cases ht : t.id = s.id
    · simp [upsert, ht]
    · simp [upsert, ht, ih]

theorem find_map_key (q : String × String → Bool) (l1 l2 : List Source)
    (h : l1.map Source.key = l2.map Source.key) :
    (l1.find? (fun s => q s.key)).map Source.key = (l2.find? (fun s => q s.key)).map Source.key := by
  induction l1 generalizing l2 with
  | nil =>
    cases l2 with
    | nil => rfl
    | cons b bs => simp at h
  | cons a as ih =>
    cases l2 with
    | nil => simp at h
    | cons b bs =>
      simp only [List.map_cons, List.cons.injEq] at h
      obtain ⟨hab, hrest⟩ := h
      simp only [List.find?_cons]
      rw [hab]
      cases hq : q b.key
      · exact ih bs hrest
      · simp [hab]

theorem filter_map_key (q : String × String → Bool) (l1 l2 : List Source)
    (h : l1.map Source.key = l2.map Source.key) :
    (l1.filter (fun s => q s.key)).length = (l2.filter (fun s => q s.key)).length := by
  induction l1 generalizing l2 with
  | nil =>
    cases l2 with
    | nil => rfl
    | cons b bs => simp at h
  | cons a as ih =>
    cases l2 with
    | nil => simp at h
    | cons b bs =>
      simp only [List.map_cons, List.cons.injEq] at h
      obtain ⟨hab, hrest⟩ := h
      simp only [List.filter_cons]
      rw [hab]
      cases hq : q b.key
      · simpa using ih bs hrest
      · simpa using ih bs hrest

theorem getSource_of_keys {X : Type} (st1 st2 : Store X) (i : String)
    (h : st1.sources.map Source.key = st2.sources.map Source.key) :
    (getSource st1 i).map Source.key = (getSource st2 i).map Source.key :=
  find_map_key (fun k => k.1 == i) _ _ h

theorem getSourceByURL_of_keys {X : Type} (st1 st2 : Store X) (u : String)
    (h : st1.sources.map Source.key = st2.sources.map Source.key) :
    (getSourceByURL st1 u).map Source.key = (getSourceByURL st2 u).map Source.key :=
  find_map_key (fun k => k.2 == u) _ _ h

theorem countByURL_of_keys {X : Type} (st1 st2 : Store X) (u : String)
    (h : st1.sources.map Source.key = st2.sources.map Source.key) :
    countByURL st1 u = countByURL st2 u :=
  filter_map_key (fun k => k.2 == u) _ _ h

theorem upsert_upsert (s1 s2 : Source) (l : List Source) (h : s1.id = s2.id) :
    upsert s2 (upsert s1 l) = upsert s2 l := by
  induction l with
  | nil => simp [upsert, h]
  | cons t ts ih =>
    by_cases ht : t.id = s1.id
    · have ht2 : t.id = s2.id := ht.trans h
      simp [upsert, ht, ht2, h]
    · have ht2 : ¬ t.id = s2.id := fun hh => ht (hh.trans h.symm)
      simp [upsert, ht, ht2, ih]

theorem find_url_upsert (s : Source) (l : List Source)
    (hnone : l.find? (fun t => t.url == s.url) = none) :
    (upsert s l).find? (fun t => t.url == s.url) = some s := by
  induction l with
  | nil => simp [upsert]
  | cons t ts ih =>
    simp only [List.find?_cons] at hnone
    cases hu : (t.url == s.url)
    · rw [hu] at hnone
      by_cases ht : t.id = s.id
      · simp [upsert, ht]
      · simp [upsert, ht, hu, ih hnone]
    · rw [hu] at hnone
      cases hnone

theorem count_url_upsert (s : Source) (l : List Source)
    (hnone : l.find? (fun t => t.url == s.url) = none) :
    ((upsert s l).filter (fun t => t.url == s.url)).length = 1 := by
  induction l with
  | nil => simp [upsert]
  | cons t ts ih =>
    simp only [List.find?_cons] at hnone
    cases hu : (t.url == s.url)
    · rw [hu] at hnone
      by_cases ht : t.id = s.id
      · have hts : ts.filter (fun t => t.url == s.url) = [] := by
          rw [List.filter_eq_nil_iff]
          intro a ha
          have := List.find?_eq_none.mp hnone a ha
          simpa using this
        simp [upsert, ht, hts]
      · simp [upsert, ht, hu, ih hnone]
    · rw [hu] at hnone
      cases hnone

/-! ## Toggling a derived id -/

/-- C1, as stated, fails: for a derived id that is not registered the toggle resolves to
the empty object, the assertion is never reached; and for a registered derived source
whose text is not loaded and whose load rejects, the toggle rejects with the reason of the
load, not with the assertion. -/
theorem toggle_derived_id_unregistered :
    demoEnv.isGeneratedId "gen1/originalSource" = false ∧
    getSource demoStore "gen1/originalSource" = none ∧
    ((togglePrettyPrint demoEnv "gen1/originalSource").run demoEnv demoStore).result
      = .ok .empty ∧
    ((togglePrettyPrint demoEnv "gen1/originalSource").run demoEnv demoStore).result
      ≠ .error (.assertion "Pretty-printing only allowed on generated sources") ∧
    offlineEnv.isGeneratedId "gen1/originalSource" = false ∧
    getSource loadingStore "gen1/originalSource"
      = some (placeholder "foo.js:formatted" "gen1/originalSource") ∧
    (togglePrettyPrint offlineEnv "gen1/originalSource").run offlineEnv loadingStore =
      { result := .error (.rejected "offline"), store := loadingStore,
        trace := [.call (.loadSourceText
          (placeholder "foo.js:formatted" "gen1/originalSource")) false] } := by
  refine ⟨by decide, by decide, rfl, ?_, by decide, by decide, rfl⟩
  rw [show ((togglePrettyPrint demoEnv "gen1/originalSource").run demoEnv demoStore).result
      = .ok .empty from rfl]
  simp

/-- C1, amended: for every store and every derived (non-generated) id the toggle never
reaches the creation logic, the only effect it can have is the text load. An unregistered
id resolves to the empty object; a registered id whose text is loaded, or loads, fails the
assertion `Pretty-printing only allowed on generated sources`; a rejected load rejects the
toggle. -/
theorem toggle_derived_id {X M R : Type} (env : Env X M R) (st : Store X) (sourceId : String)
    (hder : env.isGeneratedId sourceId = false) :
    (getSource st sourceId = none →
      (togglePrettyPrint env sourceId).run env st =
        { result := .ok .empty, store := st, trace := [] }) ∧
    (∀ source, getSource st sourceId = some source →
      (isLoaded source = true ∨ (env.loadSourceText source st).1 = .ok ()) →
      (togglePrettyPrint env sourceId).run env st =
        { result := .error (.assertion "Pretty-printing only allowed on generated sources"),
          store := afterLoad env source st, trace := loadTrace source }) ∧
    (∀ source e, getSource st sourceId = some source → isLoaded source = false →
      (env.loadSourceText source st).1 = .error e →
      (togglePrettyPrint env sourceId).run env st =
        { result := .error (.rejected e), store := (env.loadSourceText source st).2,
          trace := [.call (.loadSourceText source) false] }) ∧
    (∀ ev ∈ ((togglePrettyPrint env sourceId).run env st).trace,
      ∃ source b, ev = .call (.loadSourceText source) b) := by
  refine ⟨fun h => toggle_unregistered env st sourceId h, ?_, ?_, ?_⟩
  · intro source hsrc hload
    rcases toggle_shape env st sourceId source hsrc with
      ⟨hl, e, he, _⟩ | ⟨_, ⟨_, h⟩ | ⟨hg, _⟩⟩
    · rcases hload with h | h
      · simp [hl] at h
      · simp [he] at h
    · exact h
    all_goals simp [hder] at hg
  · intro source e hsrc hl he
    rcases toggle_shape env st sourceId source hsrc with
      ⟨_, e2, he2, h⟩ | ⟨hok, ⟨_, h⟩ | ⟨hg, _⟩⟩
    · rw [he] at he2
      cases he2
      exact h
    · rcases hok with h2 | h2
      · simp [hl] at h2
      · simp [he] at h2
    all_goals simp [hder] at hg
  · intro ev hev
    cases hsrc : getSource st sourceId with
    | none =>
      rw [toggle_unregistered env st sourceId hsrc] at hev
      simp at hev
    | some source =>
      rcases toggle_shape env st sourceId source hsrc with
        ⟨_, e, _, h⟩ | ⟨_, ⟨_, h⟩ | ⟨hg, _⟩⟩
      · rw [h] at hev
        simp at hev
        exact ⟨source, false, hev⟩
      · rw [h] at hev
        simp only [loadTrace] at hev
        split at hev
        · simp at hev
        · simp at hev
          exact ⟨source, true, hev⟩
      all_goals simp [hder] at hg

/-- Witness for the amended C1: the registered pretty source of the scenario. -/
theorem toggle_derived_id_witness :
    demoEnv.isGeneratedId "gen1/originalSource" = false ∧
    (togglePrettyPrint demoEnv "gen1/originalSource").run demoEnv toggledStore =
      { result := .error (.assertion "Pretty-printing only allowed on generated sources"),
        store := toggledStore, trace := [] } :=
  ⟨by decide,
    (toggle_derived_id demoEnv toggledStore "gen1/originalSource" (by decide)).2.1
      pretty1 (by decide) (Or.inl (by decide))⟩

/-! ## `createPrettySource` -/

/-- C5: in every successful run of `createPrettySource` on a registered source the
effects are, in this order and once each: the derived id is obtained, the placeholder
(pretty URL, derived id, pretty-printed, `loading`, no text) is registered by `ADD_SOURCE`,
`prettyPrint` is called, `applySourceMap` is called with the generated id, the pretty URL
and the code and mappings `prettyPrint` returned, the parser worker is told, and one
`UPDATE_SOURCE` carries the placeholder with `loaded` and the reformatted code. -/
theorem createPrettySource_effects {X M R : Type} (env : Env X M R) (st : Store X)
    (sourceId : String) (source p : Source)
    (hsrc : getSource st sourceId = some source)
    (hok : ((createPrettySource env sourceId).run env st).result = .ok p) :
    ∃ (d code : String) (m : M),
      (env.generatedToOriginalId sourceId (env.getPrettySourceURL source.url) st.ext).1
        = .ok d ∧
      (env.prettyPrint source (env.getPrettySourceURL source.url)
        (env.generatedToOriginalId sourceId (env.getPrettySourceURL source.url) st.ext).2).1
          = .ok (code, m) ∧
      ((createPrettySource env sourceId).run env st).trace =
        [ .call (.generatedToOriginalId sourceId (env.getPrettySourceURL source.url)) true,
          .dispatch (.ADD_SOURCE
            { url := env.getPrettySourceURL source.url, id := d, isPrettyPrinted := true,
              contentType := "text/javascript", loadedState := .loading, text := none }),
          .call (.prettyPrint source (env.getPrettySourceURL source.url)) true,
          .call (.applySourceMap sourceId (env.getPrettySourceURL source.url) code m) true,
          .setSource
            { url := env.getPrettySourceURL source.url, id := d, isPrettyPrinted := true,
              contentType := "text/javascript", loadedState := .loaded, text := some code },
          .dispatch (.UPDATE_SOURCE
            { url := env.getPrettySourceURL source.url, id := d, isPrettyPrinted := true,
              contentType := "text/javascript", loadedState := .loaded,
              text := some code }) ] := by
  rcases createPrettySource_shape env st sourceId source hsrc with
    ⟨e, _, h⟩ | ⟨d, hd, ⟨e, _, h⟩ | ⟨code, m, hp, ⟨e, _, h⟩ | ⟨_, h⟩⟩⟩
  · rw [h] at hok; simp at hok
  · rw [h] at hok; simp at hok
  · rw [h] at hok; simp at hok
  · exact ⟨d, code, m, hd, hp, by rw [h]; rfl⟩

/-- Witness for C5 on the session of the scenario. -/
theorem createPrettySource_effects_witness :
    getSource demoStore "gen1" = some gen1 ∧
    ((createPrettySource demoEnv "gen1").run demoEnv demoStore).result
      = .ok (placeholder "foo.js:formatted" "gen1/originalSource") ∧
    ∃ (d code : String) (m : Nat),
      (demoEnv.generatedToOriginalId "gen1" (demoEnv.getPrettySourceURL gen1.url)
        demoStore.ext).1 = .ok d ∧
      (demoEnv.prettyPrint gen1 (demoEnv.getPrettySourceURL gen1.url)
        (demoEnv.generatedToOriginalId "gen1" (demoEnv.getPrettySourceURL gen1.url)
          demoStore.ext).2).1 = .ok (code, m) ∧
      ((createPrettySource demoEnv "gen1").run demoEnv demoStore).trace =
        [ .call (.generatedToOriginalId "gen1" (demoEnv.getPrettySourceURL gen1.url)) true,
          .dispatch (.ADD_SOURCE
            { url := demoEnv.getPrettySourceURL gen1.url, id := d, isPrettyPrinted := true,
              contentType := "text/javascript", loadedState := .loading, text := none }),
          .call (.prettyPrint gen1 (demoEnv.getPrettySourceURL gen1.url)) true,
          .call (.applySourceMap "gen1" (demoEnv.getPrettySourceURL gen1.url) code m) true,
          .setSource
            { url := demoEnv.getPrettySourceURL gen1.url, id := d, isPrettyPrinted := true,
              contentType := "text/javascript", loadedState := .loaded, text := some code },
          .dispatch (.UPDATE_SOURCE
            { url := demoEnv.getPrettySourceURL gen1.url, id := d, isPrettyPrinted := true,
              contentType := "text/javascript", loadedState := .loaded,
              text := some code }) ] :=
  ⟨rfl, rfl, createPrettySource_effects demoEnv demoStore "gen1" gen1
    (placeholder "foo.js:formatted" "gen1/originalSource") rfl rfl⟩

/-- C4, as stated, fails: on the scenario `createPrettySource` resolves to the placeholder,
whose `loadedState` is `loading` and which has no text, while the source sent in
`UPDATE_SOURCE` is the loaded `pretty1`. -/
theorem createPrettySource_result_not_loaded :
    ((createPrettySource demoEnv "gen1").run demoEnv demoStore).result
      = .ok (placeholder "foo.js:formatted" "gen1/originalSource") ∧
    (placeholder "foo.js:formatted" "gen1/originalSource").loadedState ≠ .loaded ∧
    (placeholder "foo.js:formatted" "gen1/originalSource").text = none ∧
    ((createPrettySource demoEnv "gen1").run demoEnv demoStore).trace.getLast?
      = some (.dispatch (.UPDATE_SOURCE pretty1)) ∧
    placeholder "foo.js:formatted" "gen1/originalSource" ≠ pretty1 := by
  refine ⟨rfl, by decide, rfl, rfl, by decide⟩

/-- C4, amended: for every registered source for which the derived id, the reformat and
the bind resolve, `createPrettySource` resolves to the placeholder it registered: its
`loadedState` is `loading` and it has no text. The loaded source, with `loadedState`
`loaded` and the reformatted code as text and otherwise equal to the result, is the one
sent last, in `UPDATE_SOURCE`, and the one the registry then holds under the derived id. -/
theorem createPrettySource_result {X M R : Type} (env : Env X M R) (st : Store X)
    (sourceId : String) (source p : Source)
    (hsrc : getSource st sourceId = some source)
    (hok : ((createPrettySource env sourceId).run env st).result = .ok p) :
    p.loadedState = .loading ∧ p.text = none ∧ p.isPrettyPrinted = true ∧
    p.url = env.getPrettySourceURL source.url ∧
    ∃ (code : String) (m : M),
      (env.prettyPrint source (env.getPrettySourceURL source.url)
        (env.generatedToOriginalId sourceId (env.getPrettySourceURL source.url) st.ext).2).1
          = .ok (code, m) ∧
      ((createPrettySource env sourceId).run env st).trace.getLast? =
        some (.dispatch (.UPDATE_SOURCE { p with loadedState := .loaded, text := some code })) ∧
      getSource ((createPrettySource env sourceId).run env st).store p.id =
        some { p with loadedState := .loaded, text := some code } := by
  rcases createPrettySource_shape env st sourceId source hsrc with
    ⟨e, _, h⟩ | ⟨d, hd, ⟨e, _, h⟩ | ⟨code, m, hp, ⟨e, _, h⟩ | ⟨_, h⟩⟩⟩
  · rw [h] at hok; simp at hok
  · rw [h] at hok; simp at hok
  · rw [h] at hok; simp at hok
  · rw [h] at hok ⊢
    simp only [Except.ok.injEq] at hok
    subst hok
    refine ⟨rfl, rfl, rfl, rfl, code, m, hp, rfl, ?_⟩
    exact getSource_upsert_self _ (loadedPretty (env.getPrettySourceURL source.url) d code) _ rfl

/-- Witness for the amended C4 on the session of the scenario. -/
theorem createPrettySource_result_witness :
    getSource demoStore "gen1" = some gen1 ∧
    ((createPrettySource demoEnv "gen1").run demoEnv demoStore).result
      = .ok (placeholder "foo.js:formatted" "gen1/originalSource") ∧
    (placeholder "foo.js:formatted" "gen1/originalSource").loadedState = .loading ∧
    (placeholder "foo.js:formatted" "gen1/originalSource").text = none :=
  ⟨rfl, rfl,
    (createPrettySource_result demoEnv demoStore "gen1" gen1
      (placeholder "foo.js:formatted" "gen1/originalSource") rfl rfl).1,
    (createPrettySource_result demoEnv demoStore "gen1" gen1
      (placeholder "foo.js:formatted" "gen1/originalSource") rfl rfl).2.1⟩

/-! ## The creation path of `togglePrettyPrint` -/

/-- C3: on the creation path (registered source, no source registered for its pretty URL
when line 88 looks it up, the toggle resolves) the effects after the optional text load
and location translation are exactly, in this order and once each: the effects of
`createPrettySource(sourceId)`, then `remapBreakpoints` with the generated id, `mapFrames`,
`setPausePoints` and `setSymbols` with the id of the derived source just registered, and
last `selectLocation`. -/
theorem creation_path_order {X M R : Type} (env : Env X M R) (st : Store X)
    (sourceId : String) (source : Source) (r : ToggleResult R)
    (hsrc : getSource st sourceId = some source)
    (hnone : getSourceByURL (afterLoad env source st) (env.getPrettySourceURL source.url) = none)
    (hok : ((togglePrettyPrint env sourceId).run env st).result = .ok r) :
    ∃ (source2 : Source) (d code : String) (m : M),
      getSource (afterLoad env source st) sourceId = some source2 ∧
      (env.generatedToOriginalId sourceId (env.getPrettySourceURL source2.url)
        (afterTranslate env (afterLoad env source st)).ext).1 = .ok d ∧
      ((createPrettySource env sourceId).run env
        (afterTranslate env (afterLoad env source st))).trace =
          [ .call (.generatedToOriginalId sourceId (env.getPrettySourceURL source2.url)) true,
            .dispatch (.ADD_SOURCE (placeholder (env.getPrettySourceURL source2.url) d)),
            .call (.prettyPrint source2 (env.getPrettySourceURL source2.url)) true,
            .call (.applySourceMap sourceId (env.getPrettySourceURL source2.url) code m) true,
            .setSource (loadedPretty (env.getPrettySourceURL source2.url) d code),
            .dispatch (.UPDATE_SOURCE
              (loadedPretty (env.getPrettySourceURL source2.url) d code)) ] ∧
      ((togglePrettyPrint env sourceId).run env st).trace =
        preamble env source st ++
        ((createPrettySource env sourceId).run env
          (afterTranslate env (afterLoad env source st))).trace ++
        [ .call (.remapBreakpoints sourceId) true,
          .call .mapFrames true,
          .call (.setPausePoints d) true,
          .call (.setSymbols d) true,
          .call (.selectLocation
            (spreadLocation (translated env (afterLoad env source st)) d)) true ] := by
  obtain ⟨source2, d, code, m, v, hs2, hd, hpp, hres, _, _, hrun⟩ :=
    toggle_creation env st sourceId source r hsrc hnone hok
  have hs2t : getSource (afterTranslate env (afterLoad env source st)) sourceId = some source2 := by
    rw [getSource_afterTranslate]; exact hs2
  refine ⟨source2, d, code, m, hs2, hd, ?_, ?_⟩
  · rcases createPrettySource_shape env _ sourceId source2 hs2t with
      ⟨e, _, hc⟩ | ⟨d2, hd2, ⟨e, _, hc⟩ | ⟨code2, m2, hpp2, ⟨e, _, hc⟩ | ⟨_, hc⟩⟩⟩
    · rw [hc] at hres; simp at hres
    · rw [hc] at hres; simp at hres
    · rw [hc] at hres; simp at hres
    · rw [hd] at hd2
      cases hd2
      rw [hpp] at hpp2
      cases hpp2
      rw [hc]
  · rcases createPrettySource_shape env _ sourceId source2 hs2t with
      ⟨e, _, hc⟩ | ⟨d2, hd2, ⟨e, _, hc⟩ | ⟨code2, m2, hpp2, ⟨e, _, hc⟩ | ⟨_, hc⟩⟩⟩
    · rw [hc] at hres; simp at hres
    · rw [hc] at hres; simp at hres
    · rw [hc] at hres; simp at hres
    · rw [hd] at hd2
      cases hd2
      rw [hpp] at hpp2
      cases hpp2
      rw [hrun, hc]
      simp

/-- Witness for C3: the first toggle of `gen1` in the scenario. -/
theorem creation_path_order_witness :
    getSource demoStore "gen1" = some gen1 ∧
    getSourceByURL (afterLoad demoEnv gen1 demoStore) (demoEnv.getPrettySourceURL gen1.url)
      = none ∧
    ((togglePrettyPrint demoEnv "gen1").run demoEnv demoStore).result =
      .ok (.selected { sourceId := "gen1/originalSource", line := none, column := none }) ∧
    ((togglePrettyPrint demoEnv "gen1").run demoEnv demoStore).trace =
      [ .call (.generatedToOriginalId "gen1" "foo.js:formatted") true,
        .dispatch (.ADD_SOURCE (placeholder "foo.js:formatted" "gen1/originalSource")),
        .call (.prettyPrint gen1 "foo.js:formatted") true,
        .call (.applySourceMap "gen1" "foo.js:formatted" "function f(a){return a+1}\n" 7) true,
        .setSource pretty1,
        .dispatch (.UPDATE_SOURCE pretty1),
        .call (.remapBreakpoints "gen1") true,
        .call .mapFrames true,
        .call (.setPausePoints "gen1/originalSource") true,
        .call (.setSymbols "gen1/originalSource") true,
        .call (.selectLocation
          { sourceId := "gen1/originalSource", line := none, column := none }) true ] ∧
    ∃ (source2 : Source) (d code : String) (m : Nat),
      getSource (afterLoad demoEnv gen1 demoStore) "gen1" = some source2 ∧
      (demoEnv.generatedToOriginalId "gen1" (demoEnv.getPrettySourceURL source2.url)
        (afterTranslate demoEnv (afterLoad demoEnv gen1 demoStore)).ext).1 = .ok d ∧
      ((createPrettySource demoEnv "gen1").run demoEnv
        (afterTranslate demoEnv (afterLoad demoEnv gen1 demoStore))).trace =
          [ .call (.generatedToOriginalId "gen1" (demoEnv.getPrettySourceURL source2.url)) true,
            .dispatch (.ADD_SOURCE (placeholder (demoEnv.getPrettySourceURL source2.url) d)),
            .call (.prettyPrint source2 (demoEnv.getPrettySourceURL source2.url)) true,
            .call (.applySourceMap "gen1" (demoEnv.getPrettySourceURL source2.url) code m) true,
            .setSource (loadedPretty (demoEnv.getPrettySourceURL source2.url) d code),
            .dispatch (.UPDATE_SOURCE
              (loadedPretty (demoEnv.getPrettySourceURL source2.url) d code)) ] ∧
      ((togglePrettyPrint demoEnv "gen1").run demoEnv demoStore).trace =
        preamble demoEnv gen1 demoStore ++
        ((createPrettySource demoEnv "gen1").run demoEnv
          (afterTranslate demoEnv (afterLoad demoEnv gen1 demoStore))).trace ++
        [ .call (.remapBreakpoints "gen1") true,
          .call .mapFrames true,
          .call (.setPausePoints d) true,
          .call (.setSymbols d) true,
          .call (.selectLocation
            (spreadLocation (translated demoEnv (afterLoad demoEnv gen1 demoStore)) d)) true ] :=
  ⟨rfl, rfl, rfl, rfl,
    creation_path_order demoEnv demoStore "gen1" gen1
      (.selected { sourceId := "gen1/originalSource", line := none, column := none })
      rfl rfl rfl⟩

/-- C9 fails on the code: for the registered stylesheet `css1`, whose content type is
`text/css`, the toggle runs the whole creation path; the guard its doc comment promises
is not there. With a reformat service that rejects, the placeholder is still registered
before the rejection. -/
theorem toggle_css_is_pretty_printed :
    getSource demoStore "css1" = some css1 ∧
    css1.contentType ≠ "text/javascript" ∧
    ((togglePrettyPrint demoEnv "css1").run demoEnv demoStore).result =
      .ok (.selected { sourceId := "css1/originalSource", line := none, column := none }) ∧
    ((togglePrettyPrint demoEnv "css1").run demoEnv demoStore).trace =
      [ .call (.generatedToOriginalId "css1" "site.css:formatted") true,
        .dispatch (.ADD_SOURCE (placeholder "site.css:formatted" "css1/originalSource")),
        .call (.prettyPrint css1 "site.css:formatted") true,
        .call (.applySourceMap "css1" "site.css:formatted" "a{color:red}\n" 7) true,
        .setSource (loadedPretty "site.css:formatted" "css1/originalSource" "a{color:red}\n"),
        .dispatch (.UPDATE_SOURCE
          (loadedPretty "site.css:formatted" "css1/originalSource" "a{color:red}\n")),
        .call (.remapBreakpoints "css1") true,
        .call .mapFrames true,
        .call (.setPausePoints "css1/originalSource") true,
        .call (.setSymbols "css1/originalSource") true,
        .call (.selectLocation
          { sourceId := "css1/originalSource", line := none, column := none }) true ] ∧
    getSourceByURL ((togglePrettyPrint demoEnv "css1").run demoEnv demoStore).store
      "site.css:formatted" =
        some (loadedPretty "site.css:formatted" "css1/originalSource" "a{color:red}\n") ∧
    ((togglePrettyPrint failingEnv "css1").run failingEnv demoStore).trace =
      [ .call (.generatedToOriginalId "css1" "site.css:formatted") true,
        .dispatch (.ADD_SOURCE (placeholder "site.css:formatted" "css1/originalSource")),
        .call (.prettyPrint css1 "site.css:formatted") false ] ∧
    getSourceByURL ((togglePrettyPrint failingEnv "css1").run failingEnv demoStore).store
      "site.css:formatted" = some (placeholder "site.css:formatted" "css1/originalSource") := by
  refine ⟨rfl, by decide, rfl, rfl, rfl, rfl, rfl⟩

/-! ## The selection made by `togglePrettyPrint` -/

theorem preamble_countP_select {X M R : Type} (env : Env X M R) (source : Source)
    (st : Store X) : (preamble env source st).countP Event.isSelectLocation = 0 := by
  rw [List.countP_eq_zero]
  intro ev hev
  rcases preamble_events env source st ev hev with h | ⟨l, h⟩ <;> simp [h, Event.isSelectLocation]

/-- C7: every toggle of a registered source that resolves dispatches `selectLocation`
exactly once, as its last effect, and resolves to the value of that dispatch. The argument
carries the id of the derived source: the one found by URL on the reuse path, the one
obtained and registered by `ADD_SOURCE` on the creation path. Its line and column are those
of `getOriginalLocation(selectedLocation)`, whatever source id that translation carries;
with nothing selected it carries the derived id only. -/
theorem toggle_selects_derived_source {X M R : Type} (env : Env X M R) (st : Store X)
    (sourceId : String) (source : Source) (r : ToggleResult R)
    (hsrc : getSource st sourceId = some source)
    (hok : ((togglePrettyPrint env sourceId).run env st).result = .ok r) :
    ∃ (d : String) (v : R) (stSel : Store X),
      r = .selected v ∧
      (env.selectLocation (spreadLocation (translated env (afterLoad env source st)) d)
        stSel).1 = .ok v ∧
      ((togglePrettyPrint env sourceId).run env st).store =
        (env.selectLocation (spreadLocation (translated env (afterLoad env source st)) d)
          stSel).2 ∧
      ((togglePrettyPrint env sourceId).run env st).trace.countP Event.isSelectLocation = 1 ∧
      ((togglePrettyPrint env sourceId).run env st).trace.getLast? =
        some (.call (.selectLocation
          (spreadLocation (translated env (afterLoad env source st)) d)) true) ∧
      (∀ p, getSourceByURL (afterLoad env source st) (env.getPrettySourceURL source.url)
          = some p → d = p.id) ∧
      (getSourceByURL (afterLoad env source st) (env.getPrettySourceURL source.url) = none →
        ∃ source2, getSource (afterLoad env source st) sourceId = some source2 ∧
          (env.generatedToOriginalId sourceId (env.getPrettySourceURL source2.url)
            (afterTranslate env (afterLoad env source st)).ext).1 = .ok d ∧
          Event.dispatch (.ADD_SOURCE (placeholder (env.getPrettySourceURL source2.url) d))
            ∈ ((togglePrettyPrint env sourceId).run env st).trace) ∧
      (getSelectedLocation (afterLoad env source st) = none →
        spreadLocation (translated env (afterLoad env source st)) d =
          { sourceId := d, line := none, column := none }) ∧
      (∀ l, getSelectedLocation (afterLoad env source st) = some l →
        ∃ loc, (env.getOriginalLocation l (afterLoad env source st).ext).1 = .ok loc ∧
          spreadLocation (translated env (afterLoad env source st)) d =
            { sourceId := d, line := some loc.line, column := loc.column }) := by
  have htr := toggle_ok_translated env st sourceId source r hsrc hok
  cases hp : getSourceByURL (afterLoad env source st) (env.getPrettySourceURL source.url) with
  | some p =>
    obtain ⟨v, hv, hrun⟩ := toggle_reuse env st sourceId source p r hsrc hp hok
    have hr : r = .selected v := by
      rw [hrun] at hok
      simpa using hok.symm
    refine ⟨p.id, v, _, hr, hv, by rw [hrun], ?_, ?_, ?_, ?_,
      (translated_cases env _ p.id htr).1, (translated_cases env _ p.id htr).2⟩
    · rw [hrun]
      simp [List.countP_append, preamble_countP_select, Event.isSelectLocation]
    · rw [hrun]
      simp
    · intro p2 hp2
      cases hp2
      rfl
    · intro hn
      cases hn
  | none =>
    obtain ⟨source2, d, code, m, v, hs2, hd, hpp, hres, _, hv, hrun⟩ :=
      toggle_creation env st sourceId source r hsrc hp hok
    have hr : r = .selected v := by
      rw [hrun] at hok
      simpa using hok.symm
    refine ⟨d, v, _, hr, hv, by rw [hrun], ?_, ?_, ?_, ?_,
      (translated_cases env _ d htr).1, (translated_cases env _ d htr).2⟩
    · rw [hrun]
      simp [List.countP_append, preamble_countP_select, Event.isSelectLocation,
        List.countP_cons]
    · rw [hrun]
      simp
    · intro p2 hp2
      cases hp2
    · intro _
      refine ⟨source2, hs2, hd, ?_⟩
      rw [hrun]
      simp

/-- Witness for C7: toggling `gen1` again once `pretty1` exists selects `pretty1`. -/
theorem toggle_selects_derived_source_witness :
    getSource toggledStore "gen1" = some gen1 ∧
    ((togglePrettyPrint demoEnv "gen1").run demoEnv toggledStore).result =
      .ok (.selected { sourceId := "gen1/originalSource", line := none, column := none }) ∧
    ((togglePrettyPrint demoEnv "gen1").run demoEnv toggledStore).trace =
      [ .call (.selectLocation
          { sourceId := "gen1/originalSource", line := none, column := none }) true ] ∧
    ∃ (d : String) (v : SelectArg) (stSel : Store Bool),
      ToggleResult.selected
          ({ sourceId := "gen1/originalSource", line := none, column := none } : SelectArg)
        = .selected v ∧
      (demoEnv.selectLocation
        (spreadLocation (translated demoEnv (afterLoad demoEnv gen1 toggledStore)) d)
        stSel).1 = .ok v ∧
      ((togglePrettyPrint demoEnv "gen1").run demoEnv toggledStore).store =
        (demoEnv.selectLocation
          (spreadLocation (translated demoEnv (afterLoad demoEnv gen1 toggledStore)) d)
          stSel).2 ∧
      ((togglePrettyPrint demoEnv "gen1").run demoEnv toggledStore).trace.countP
        Event.isSelectLocation = 1 ∧
      ((togglePrettyPrint demoEnv "gen1").run demoEnv toggledStore).trace.getLast? =
        some (.call (.selectLocation
          (spreadLocation (translated demoEnv (afterLoad demoEnv gen1 toggledStore)) d)) true) ∧
      (∀ p, getSourceByURL (afterLoad demoEnv gen1 toggledStore)
          (demoEnv.getPrettySourceURL gen1.url) = some p → d = p.id) ∧
      (getSourceByURL (afterLoad demoEnv gen1 toggledStore)
          (demoEnv.getPrettySourceURL gen1.url) = none →
        ∃ source2, getSource (afterLoad demoEnv gen1 toggledStore) "gen1" = some source2 ∧
          (demoEnv.generatedToOriginalId "gen1" (demoEnv.getPrettySourceURL source2.url)
            (afterTranslate demoEnv (afterLoad demoEnv gen1 toggledStore)).ext).1 = .ok d ∧
          Event.dispatch (.ADD_SOURCE (placeholder (demoEnv.getPrettySourceURL source2.url) d))
            ∈ ((togglePrettyPrint demoEnv "gen1").run demoEnv toggledStore).trace) ∧
      (getSelectedLocation (afterLoad demoEnv gen1 toggledStore) = none →
        spreadLocation (translated demoEnv (afterLoad demoEnv gen1 toggledStore)) d =
          { sourceId := d, line := none, column := none }) ∧
      (∀ l, getSelectedLocation (afterLoad demoEnv gen1 toggledStore) = some l →
        ∃ loc, (demoEnv.getOriginalLocation l (afterLoad demoEnv gen1 toggledStore).ext).1
            = .ok loc ∧
          spreadLocation (translated demoEnv (afterLoad demoEnv gen1 toggledStore)) d =
            { sourceId := d, line := some loc.line, column := loc.column }) :=
  ⟨rfl, rfl, rfl,
    toggle_selects_derived_source demoEnv toggledStore "gen1" gen1
      (.selected { sourceId := "gen1/originalSource", line := none, column := none }) rfl rfl⟩

/-- C8, as stated, fails: with line 1, column 20 of `gen1` selected, the first toggle
translates the location before `applySourceMap` has bound the mapping and not after it.
The location selected is the untranslated line 1, column 20, where a translation against
the bound mapping gives line 2, column 2. -/
theorem translation_precedes_bind :
    getSelectedLocation selectedStore
      = some { sourceId := "gen1", line := 1, column := some 20 } ∧
    ((togglePrettyPrint demoEnv "gen1").run demoEnv selectedStore).trace =
      [ .call (.getOriginalLocation { sourceId := "gen1", line := 1, column := some 20 }) true,
        .call (.generatedToOriginalId "gen1" "foo.js:formatted") true,
        .dispatch (.ADD_SOURCE (placeholder "foo.js:formatted" "gen1/originalSource")),
        .call (.prettyPrint gen1 "foo.js:formatted") true,
        .call (.applySourceMap "gen1" "foo.js:formatted" "function f(a){return a+1}\n" 7) true,
        .setSource pretty1,
        .dispatch (.UPDATE_SOURCE pretty1),
        .call (.remapBreakpoints "gen1") true,
        .call .mapFrames true,
        .call (.setPausePoints "gen1/originalSource") true,
        .call (.setSymbols "gen1/originalSource") true,
        .call (.selectLocation
          { sourceId := "gen1/originalSource", line := some 1, column := some 20 }) true ] ∧
    ((((togglePrettyPrint demoEnv "gen1").run demoEnv selectedStore).trace.dropWhile
      (fun ev => !ev.isBind)).any Event.isTranslate) = false ∧
    ((togglePrettyPrint demoEnv "gen1").run demoEnv selectedStore).store.ext = true ∧
    (demoEnv.getOriginalLocation { sourceId := "gen1", line := 1, column := some 20 } true).1 =
      .ok { sourceId := "gen1", line := 2, column := some 2 } := by
  refine ⟨rfl, rfl, rfl, rfl, rfl⟩

/-- C8, amended: on the creation path with a location selected, the translation
`getOriginalLocation(selectedLocation)` is performed once, before `createPrettySource`
starts, so before the placeholder is registered and before `applySourceMap` binds the
mapping; it is computed against the worker state of that moment and is not redone. The
location handed to `selectLocation` is that translation with the new derived id. -/
theorem creation_translates_before_bind {X M R : Type} (env : Env X M R) (st : Store X)
    (sourceId : String) (source : Source) (l : Location) (r : ToggleResult R)
    (hsrc : getSource st sourceId = some source)
    (hnone : getSourceByURL (afterLoad env source st) (env.getPrettySourceURL source.url) = none)
    (hsel : getSelectedLocation (afterLoad env source st) = some l)
    (hok : ((togglePrettyPrint env sourceId).run env st).result = .ok r) :
    ∃ (loc : Location) (source2 : Source) (d code : String) (m : M),
      (env.getOriginalLocation l (afterLoad env source st).ext).1 = .ok loc ∧
      ((togglePrettyPrint env sourceId).run env st).trace =
        loadTrace source ++
        [ .call (.getOriginalLocation l) true,
          .call (.generatedToOriginalId sourceId (env.getPrettySourceURL source2.url)) true,
          .dispatch (.ADD_SOURCE (placeholder (env.getPrettySourceURL source2.url) d)),
          .call (.prettyPrint source2 (env.getPrettySourceURL source2.url)) true,
          .call (.applySourceMap sourceId (env.getPrettySourceURL source2.url) code m) true,
          .setSource (loadedPretty (env.getPrettySourceURL source2.url) d code),
          .dispatch (.UPDATE_SOURCE (loadedPretty (env.getPrettySourceURL source2.url) d code)),
          .call (.remapBreakpoints sourceId) true,
          .call .mapFrames true,
          .call (.setPausePoints d) true,
          .call (.setSymbols d) true,
          .call (.selectLocation
            { sourceId := d, line := some loc.line, column := loc.column }) true ] := by
  obtain ⟨loc, hloc⟩ := toggle_ok_translated env st sourceId source r hsrc hok l hsel
  obtain ⟨source2, d, code, m, v, _, _, _, _, _, _, hrun⟩ :=
    toggle_creation env st sourceId source r hsrc hnone hok
  refine ⟨loc, source2, d, code, m, hloc, ?_⟩
  rw [hrun, preamble_some env source st l hsel, translated_some env _ l loc hsel hloc]
  simp [spreadLocation]

/-- Witness for the amended C8: the first toggle of `gen1` with a location selected. -/
theorem creation_translates_before_bind_witness :
    getSource selectedStore "gen1" = some gen1 ∧
    getSourceByURL (afterLoad demoEnv gen1 selectedStore)
      (demoEnv.getPrettySourceURL gen1.url) = none ∧
    getSelectedLocation (afterLoad demoEnv gen1 selectedStore)
      = some { sourceId := "gen1", line := 1, column := some 20 } ∧
    ((togglePrettyPrint demoEnv "gen1").run demoEnv selectedStore).result =
      .ok (.selected { sourceId := "gen1/originalSource", line := some 1, column := some 20 }) ∧
    ∃ (loc : Location) (source2 : Source) (d code : String) (m : Nat),
      (demoEnv.getOriginalLocation { sourceId := "gen1", line := 1, column := some 20 }
        (afterLoad demoEnv gen1 selectedStore).ext).1 = .ok loc ∧
      ((togglePrettyPrint demoEnv "gen1").run demoEnv selectedStore).trace =
        loadTrace gen1 ++
        [ .call (.getOriginalLocation { sourceId := "gen1", line := 1, column := some 20 }) true,
          .call (.generatedToOriginalId "gen1" (demoEnv.getPrettySourceURL source2.url)) true,
          .dispatch (.ADD_SOURCE (placeholder (demoEnv.getPrettySourceURL source2.url) d)),
          .call (.prettyPrint source2 (demoEnv.getPrettySourceURL source2.url)) true,
          .call (.applySourceMap "gen1" (demoEnv.getPrettySourceURL source2.url) code m) true,
          .setSource (loadedPretty (demoEnv.getPrettySourceURL source2.url) d code),
          .dispatch (.UPDATE_SOURCE
            (loadedPretty (demoEnv.getPrettySourceURL source2.url) d code)),
          .call (.remapBreakpoints "gen1") true,
          .call .mapFrames true,
          .call (.setPausePoints d) true,
          .call (.setSymbols d) true,
          .call (.selectLocation
            { sourceId := d, line := some loc.line, column := loc.column }) true ] :=
  ⟨rfl, rfl, rfl, rfl,
    creation_translates_before_bind demoEnv selectedStore "gen1" gen1
      { sourceId := "gen1", line := 1, column := some 20 }
      (.selected { sourceId := "gen1/originalSource", line := some 1, column := some 20 })
      rfl rfl rfl rfl⟩

/-! ## A failing transform -/

theorem transformFailure_call {M : Type} (ev : Event M) (h : ev.isTransformFailure = true) :
    ∃ op, ev = .call op false := by
  cases ev with
  | dispatch a => simp [Event.isTransformFailure] at h
  | setSource s => simp [Event.isTransformFailure] at h
  | call op b =>
    cases b
    · exact ⟨op, rfl⟩
    · cases op <;> simp [Event.isTransformFailure] at h

theorem getSelectedLocation_afterTranslate {X M R : Type} (env : Env X M R) (st : Store X) :
    getSelectedLocation (afterTranslate env st) = getSelectedLocation st := by
  unfold afterTranslate getSelectedLocation
  split <;> rfl

theorem createPrettySource_failure {X M R : Type} (env : Env X M R) (st : Store X)
    (sourceId : String) (ev : Event M)
    (hev : ev ∈ ((createPrettySource env sourceId).run env st).trace)
    (hfail : ev.isTransformFailure = true) :
    (∃ e, ((createPrettySource env sourceId).run env st).result = .error (.rejected e)) ∧
    (∀ ev2 ∈ ((createPrettySource env sourceId).run env st).trace,
      ev2.isUpdateSource = false ∧ ev2.isRemapStep = false ∧ ev2.isSelectLocation = false) ∧
    (∃ ph : Source,
      Event.dispatch (.ADD_SOURCE ph) ∈ ((createPrettySource env sourceId).run env st).trace ∧
      ph.loadedState = .loading ∧
      getSource ((createPrettySource env sourceId).run env st).store ph.id = some ph) ∧
    getSelectedLocation ((createPrettySource env sourceId).run env st).store =
      getSelectedLocation st := by
  cases hs : getSource st sourceId with
  | none =>
    rw [createPrettySource_unregistered env st sourceId hs] at hev
    simp at hev
  | some source =>
    rcases createPrettySource_shape env st sourceId source hs with
      ⟨e, _, hc⟩ | ⟨d, hd, ⟨e, _, hc⟩ | ⟨code, m, hpp, ⟨e, _, hc⟩ | ⟨_, hc⟩⟩⟩
    · rw [hc] at hev
      simp at hev
      subst hev
      simp [Event.isTransformFailure] at hfail
    · rw [hc]
      refine ⟨⟨e, rfl⟩, ?_, ⟨placeholder (env.getPrettySourceURL source.url) d, ?_, rfl, ?_⟩, rfl⟩
      · intro ev2 h2
        simp at h2
        rcases h2 with h2 | h2 | h2 <;>
          simp [h2, Event.isUpdateSource, Event.isRemapStep, Event.isSelectLocation]
      · simp
      · exact getSource_upsert_self _ _ _ rfl
    · rw [hc]
      refine ⟨⟨e, rfl⟩, ?_, ⟨placeholder (env.getPrettySourceURL source.url) d, ?_, rfl, ?_⟩, rfl⟩
      · intro ev2 h2
        simp at h2
        rcases h2 with h2 | h2 | h2 | h2 <;>
          simp [h2, Event.isUpdateSource, Event.isRemapStep, Event.isSelectLocation]
      · simp
      · exact getSource_upsert_self _ _ _ rfl
    · obtain ⟨op, hop⟩ := transformFailure_call ev hfail
      subst hop
      obtain ⟨e, he⟩ := run_failed env _ st op hev
      rw [hc] at he
      simp at he

/-- C6: whenever, in a run of `togglePrettyPrint` on a registered source, the call of
`prettyPrint` or of `applySourceMap` rejects, the toggle is rejected; no `UPDATE_SOURCE` is
dispatched, so the placeholder registered by `ADD_SOURCE` stays in the registry with
`loadedState` `loading`; no remap step is attempted; and `selectLocation` is not
dispatched, the selected location being the one line 86 read, which for a source whose
text was loaded is the one selected before the toggle. -/
theorem toggle_transform_failure {X M R : Type} (env : Env X M R) (st : Store X)
    (sourceId : String) (source : Source)
    (hsrc : getSource st sourceId = some source)
    (hfail : ∃ ev ∈ ((togglePrettyPrint env sourceId).run env st).trace,
      ev.isTransformFailure = true) :
    (∃ e, ((togglePrettyPrint env sourceId).run env st).result = .error (.rejected e)) ∧
    (∀ ev ∈ ((togglePrettyPrint env sourceId).run env st).trace,
      ev.isUpdateSource = false ∧ ev.isRemapStep = false ∧ ev.isSelectLocation = false) ∧
    (∃ ph : Source,
      Event.dispatch (.ADD_SOURCE ph) ∈ ((togglePrettyPrint env sourceId).run env st).trace ∧
      ph.loadedState = .loading ∧
      getSource ((togglePrettyPrint env sourceId).run env st).store ph.id = some ph) ∧
    getSelectedLocation ((togglePrettyPrint env sourceId).run env st).store =
      getSelectedLocation (afterLoad env source st) ∧
    (isLoaded source = true →
      getSelectedLocation ((togglePrettyPrint env sourceId).run env st).store =
        getSelectedLocation st) := by
  obtain ⟨ev, hev, hf⟩ := hfail
  have hpre : ∀ ev2 ∈ preamble env source st,
      ev2.isTransformFailure = false ∧ ev2.isUpdateSource = false ∧ ev2.isRemapStep = false ∧
        ev2.isSelectLocation = false := by
    intro ev2 h2
    rcases preamble_events env source st ev2 h2 with h | ⟨l, h⟩ <;>
      simp [h, Event.isTransformFailure, Event.isUpdateSource, Event.isRemapStep,
        Event.isSelectLocation]
  rcases toggle_shape env st sourceId source hsrc with
    ⟨_, e, _, h⟩ | ⟨_, ⟨_, h⟩ | ⟨_, ⟨l, e, _, _, h⟩ | ⟨_, ⟨p, hp, h⟩ | ⟨hn, h⟩⟩⟩⟩
  · rw [h] at hev
    simp at hev
    subst hev
    simp [Event.isTransformFailure] at hf
  · rw [h] at hev
    have := loadTrace_events source ev hev
    subst this
    simp [Event.isTransformFailure] at hf
  · rw [h] at hev
    simp only [List.mem_append, List.mem_singleton] at hev
    rcases hev with hev | hev
    · have := loadTrace_events source ev hev
      subst this
      simp [Event.isTransformFailure] at hf
    · subst hev
      simp [Event.isTransformFailure] at hf
  · rw [h, reusePath_run] at hev
    simp only [Outcome.prepend_trace, List.mem_append] at hev
    rcases hev with hev | hev
    · rw [(hpre ev hev).1] at hf
      cases hf
    · split at hev <;> simp at hev <;> subst hev <;> simp [Event.isTransformFailure] at hf
  · rw [h] at hev ⊢
    rw [creationPath_eq, run_bind] at hev ⊢
    simp only [Outcome.prepend_trace, List.mem_append] at hev
    have hnotpre : ev ∉ preamble env source st := by
      intro hin
      rw [(hpre ev hin).1] at hf
      cases hf
    cases hc : ((createPrettySource env sourceId).run env
        (afterTranslate env (afterLoad env source st))).result with
    | ok p =>
      exfalso
      rw [hc] at hev
      simp only [Outcome.prepend_trace, List.mem_append] at hev
      rcases hev with hev | hev | hev
      · exact hnotpre hev
      · obtain ⟨op, hop⟩ := transformFailure_call ev hf
        subst hop
        obtain ⟨e, he⟩ := run_failed env _ _ op hev
        rw [hc] at he
        cases he
      · rcases remapAndSelect_events env sourceId _ p _ ev hev with h2 | h2
        · cases ev with
          | dispatch a => simp [Event.isTransformFailure] at hf
          | setSource s => simp [Event.isTransformFailure] at hf
          | call op b => cases op <;> simp [Event.isTransformFailure, Event.isRemapStep] at hf h2
        · cases ev with
          | dispatch a => simp [Event.isTransformFailure] at hf
          | setSource s => simp [Event.isTransformFailure] at hf
          | call op b =>
            cases op <;> simp [Event.isTransformFailure, Event.isSelectLocation] at hf h2
    | error e0 =>
      rw [hc] at hev
      simp only at hev
      rcases hev with hev | hev
      · exact absurd hev hnotpre
      obtain ⟨⟨e, he⟩, hall, ⟨ph, hph, hld, hget⟩, hselc⟩ :=
        createPrettySource_failure env _ sourceId ev hev hf
      rw [hc] at he
      cases he
      simp only [Outcome.prepend_result, Outcome.prepend_store, Outcome.prepend_trace]
      refine ⟨⟨e, rfl⟩, ?_, ⟨ph, ?_, hld, hget⟩, ?_, ?_⟩
      · intro ev2 h2
        simp only [List.mem_append] at h2
        rcases h2 with h2 | h2
        · exact (hpre ev2 h2).2
        · exact hall ev2 h2
      · simp only [List.mem_append]
        exact Or.inr hph
      · rw [hselc, getSelectedLocation_afterTranslate]
      · intro hl
        rw [hselc, getSelectedLocation_afterTranslate]
        simp [afterLoad, hl]

/-- Witness for C6: the first toggle of `gen1` with a reformat service that rejects. -/
theorem toggle_transform_failure_witness :
    getSource demoStore "gen1" = some gen1 ∧
    ((togglePrettyPrint failingEnv "gen1").run failingEnv demoStore).trace =
      [ .call (.generatedToOriginalId "gen1" "foo.js:formatted") true,
        .dispatch (.ADD_SOURCE (placeholder "foo.js:formatted" "gen1/originalSource")),
        .call (.prettyPrint gen1 "foo.js:formatted") false ] ∧
    ((togglePrettyPrint failingEnv "gen1").run failingEnv demoStore).result =
      .error (.rejected "unparsable") ∧
    getSource ((togglePrettyPrint failingEnv "gen1").run failingEnv demoStore).store
      "gen1/originalSource" = some (placeholder "foo.js:formatted" "gen1/originalSource") ∧
    (∃ e, ((togglePrettyPrint failingEnv "gen1").run failingEnv demoStore).result
      = .error (.rejected e)) ∧
    getSelectedLocation ((togglePrettyPrint failingEnv "gen1").run failingEnv demoStore).store =
      getSelectedLocation (afterLoad failingEnv gen1 demoStore) :=
  ⟨rfl, rfl, rfl, rfl,
    (toggle_transform_failure failingEnv demoStore "gen1" gen1 rfl
      ⟨.call (.prettyPrint gen1 "foo.js:formatted") false,
        by rw [show ((togglePrettyPrint failingEnv "gen1").run failingEnv demoStore).trace =
            [ .call (.generatedToOriginalId "gen1" "foo.js:formatted") true,
              .dispatch (.ADD_SOURCE (placeholder "foo.js:formatted" "gen1/originalSource")),
              .call (.prettyPrint gen1 "foo.js:formatted") false ] from rfl]; simp,
        rfl⟩).1,
    (toggle_transform_failure failingEnv demoStore "gen1" gen1 rfl
      ⟨.call (.prettyPrint gen1 "foo.js:formatted") false,
        by rw [show ((togglePrettyPrint failingEnv "gen1").run failingEnv demoStore).trace =
            [ .call (.generatedToOriginalId "gen1" "foo.js:formatted") true,
              .dispatch (.ADD_SOURCE (placeholder "foo.js:formatted" "gen1/originalSource")),
              .call (.prettyPrint gen1 "foo.js:formatted") false ] from rfl]; simp,
        rfl⟩).2.2.2.1⟩

/-! ## Toggling twice in sequence -/

theorem toggle_ok_generated {X M R : Type} (env : Env X M R) (st : Store X)
    (sourceId : String) (source : Source) (r : ToggleResult R)
    (hsrc : getSource st sourceId = some source)
    (hok : ((togglePrettyPrint env sourceId).run env st).result = .ok r) :
    env.isGeneratedId sourceId = true := by
  rcases toggle_shape env st sourceId source hsrc with
    ⟨_, e, _, h⟩ | ⟨_, ⟨_, h⟩ | ⟨hg, _⟩⟩
  · rw [h] at hok; simp at hok
  · rw [h] at hok; simp at hok
  · exact hg

theorem keys_afterLoad {X M R : Type} (env : Env X M R) (hkeep : env.KeepsSources)
    (source : Source) (st : Store X) :
    (afterLoad env source st).sources.map Source.key = st.sources.map Source.key := by
  unfold afterLoad
  split
  · rfl
  · exact hkeep (.loadSourceText source) st

theorem keys_afterTranslate {X M R : Type} (env : Env X M R) (st : Store X) :
    (afterTranslate env st).sources = st.sources := by
  unfold afterTranslate
  split <;> rfl

theorem keys_afterRemap {X M R : Type} (env : Env X M R) (hkeep : env.KeepsSources)
    (sourceId : String) (p : Source) (st : Store X) :
    (afterRemap env sourceId p st).sources.map Source.key = st.sources.map Source.key := by
  unfold afterRemap
  have h1 := hkeep (.remapBreakpoints sourceId) st
  have h2 := hkeep .mapFrames (env.remapBreakpoints sourceId st).2
  have h3 := hkeep (.setPausePoints p.id) (env.mapFrames (env.remapBreakpoints sourceId st).2).2
  have h4 := hkeep (.setSymbols p.id)
    (env.setPausePoints p.id (env.mapFrames (env.remapBreakpoints sourceId st).2).2).2
  simp only [Env.perform] at h1 h2 h3 h4
  rw [h4, h3, h2, h1]

/-- The second of two toggles in sequence: with the source still registered under its
URL and a source registered for the pretty URL, no effect of the creation path occurs. -/
theorem toggle_with_pretty_registered {X M R : Type} (env : Env X M R)
    (hkeep : env.KeepsSources) (st : Store X) (sourceId : String) (source p : Source)
    (hsrc : getSource st sourceId = some source)
    (hreg : getSourceByURL st (env.getPrettySourceURL source.url) = some p) :
    (∀ ev ∈ ((togglePrettyPrint env sourceId).run env st).trace, ev.isCreationStep = false) ∧
    (∀ ev ∈ ((togglePrettyPrint env sourceId).run env st).trace, ev.isSelectLocation = true →
      ∃ loc b, ev = .call (.selectLocation (spreadLocation loc p.id)) b) ∧
    (∀ r, ((togglePrettyPrint env sourceId).run env st).result = .ok r → ∃ v, r = .selected v) ∧
    ((togglePrettyPrint env sourceId).run env st).store.sources.map Source.key =
      st.sources.map Source.key := by
  have hk1 := keys_afterLoad env hkeep source st
  have hreg1 : ∃ p2, getSourceByURL (afterLoad env source st)
      (env.getPrettySourceURL source.url) = some p2 ∧ p2.id = p.id := by
    have := getSourceByURL_of_keys _ _ (env.getPrettySourceURL source.url) hk1
    rw [hreg] at this
    cases h2 : getSourceByURL (afterLoad env source st) (env.getPrettySourceURL source.url) with
    | none => rw [h2] at this; simp at this
    | some p2 =>
      rw [h2] at this
      simp only [Option.map_some', Option.some.injEq, Source.key, Prod.mk.injEq] at this
      exact ⟨p2, rfl, this.1⟩
  obtain ⟨p2, hp2, hid2⟩ := hreg1
  have hpre : ∀ ev ∈ preamble env source st,
      ev.isCreationStep = false ∧ ev.isSelectLocation = false := by
    intro ev h
    rcases preamble_events env source st ev h with h | ⟨l, h⟩ <;>
      simp [h, Event.isCreationStep, Event.isSelectLocation]
  have hld : ∀ ev ∈ (loadTrace source : List (Event M)),
      ev.isCreationStep = false ∧ ev.isSelectLocation = false := by
    intro ev h
    have := loadTrace_events source ev h
    simp [this, Event.isCreationStep, Event.isSelectLocation]
  rcases toggle_shape env st sourceId source hsrc with
    ⟨_, e, _, h⟩ | ⟨_, ⟨_, h⟩ | ⟨_, ⟨l, e, _, _, h⟩ | ⟨_, ⟨p3, hp3, h⟩ | ⟨hn, h⟩⟩⟩⟩
  · rw [h]
    refine ⟨?_, ?_, ?_, ?_⟩
    · intro ev hev
      simp at hev
      simp [hev, Event.isCreationStep]
    · intro ev hev hs
      simp at hev
      simp [hev, Event.isSelectLocation] at hs
    · intro r hr
      simp at hr
    · exact hkeep (.loadSourceText source) st
  · rw [h]
    refine ⟨fun ev hev => (hld ev hev).1, ?_, ?_, hk1⟩
    · intro ev hev hs
      rw [(hld ev hev).2] at hs
      cases hs
    · intro r hr
      simp at hr
  · rw [h]
    refine ⟨?_, ?_, ?_, ?_⟩
    · intro ev hev
      simp only [List.mem_append, List.mem_singleton] at hev
      rcases hev with hev | hev
      · exact (hld ev hev).1
      · simp [hev, Event.isCreationStep]
    · intro ev hev hs
      simp only [List.mem_append, List.mem_singleton] at hev
      rcases hev with hev | hev
      · rw [(hld ev hev).2] at hs
        cases hs
      · simp [hev, Event.isSelectLocation] at hs
    · intro r hr
      simp at hr
    · simp only
      rw [keys_afterTranslate]
      exact hk1
  · rw [hp2] at hp3
    cases hp3
    rw [h, reusePath_run]
    have hks : (env.selectLocation
        (spreadLocation (translated env (afterLoad env source st)) p2.id)
        (afterTranslate env (afterLoad env source st))).2.sources.map Source.key =
          st.sources.map Source.key := by
      have := hkeep (.selectLocation
        (spreadLocation (translated env (afterLoad env source st)) p2.id))
        (afterTranslate env (afterLoad env source st))
      simp only [Env.perform] at this
      rw [this, keys_afterTranslate]
      exact hk1
    cases hc : (env.selectLocation
        (spreadLocation (translated env (afterLoad env source st)) p2.id)
        (afterTranslate env (afterLoad env source st))).1 with
    | ok v =>
      simp only [Outcome.prepend_trace, Outcome.prepend_result, Outcome.prepend_store]
      refine ⟨?_, ?_, ?_, hks⟩
      · intro ev hev
        simp only [List.mem_append, List.mem_singleton] at hev
        rcases hev with hev | hev
        · exact (hpre ev hev).1
        · simp [hev, Event.isCreationStep]
      · intro ev hev hs
        simp only [List.mem_append, List.mem_singleton] at hev
        rcases hev with hev | hev
        · rw [(hpre ev hev).2] at hs
          cases hs
        · exact ⟨_, true, by rw [hev, hid2]⟩
      · intro r hr
        simp only [Except.ok.injEq] at hr
        exact ⟨v, hr.symm⟩
    | error e =>
      simp only [Outcome.prepend_trace, Outcome.prepend_result, Outcome.prepend_store]
      refine ⟨?_, ?_, ?_, hks⟩
      · intro ev hev
        simp only [List.mem_append, List.mem_singleton] at hev
        rcases hev with hev | hev
        · exact (hpre ev hev).1
        · simp [hev, Event.isCreationStep]
      · intro ev hev hs
        simp only [List.mem_append, List.mem_singleton] at hev
        rcases hev with hev | hev
        · rw [(hpre ev hev).2] at hs
          cases hs
        · exact ⟨_, false, by rw [hev, hid2]⟩
      · intro r hr
        simp at hr
  · rw [hp2] at hn
    cases hn

theorem addSource_isCreationStep {M : Type} (ev : Event M) (h : ev.isCreationStep = false) :
    ev.isAddSource = false := by
  cases ev with
  | dispatch a => simp [Event.isCreationStep] at h
  | setSource s => simp [Event.isCreationStep] at h
  | call op b => rfl

theorem preamble_countP_add {X M R : Type} (env : Env X M R) (source : Source)
    (st : Store X) : (preamble env source st).countP Event.isAddSource = 0 := by
  rw [List.countP_eq_zero]
  intro ev hev
  rcases preamble_events env source st ev hev with h | ⟨l, h⟩ <;> simp [h, Event.isAddSource]

/-- C2: for every loaded generated source with no source registered for its pretty URL,
two toggles in sequence, the second starting from the store the first one left when it
resolved, dispatch exactly one `ADD_SOURCE` between them; the second performs no effect of
the creation path (no derived id, `ADD_SOURCE`, `prettyPrint`, `applySourceMap`,
`setSource`, `UPDATE_SOURCE`, `remapBreakpoints`, `mapFrames`, `setPausePoints`,
`setSymbols`), selects the source the first one registered, and exactly one source is
registered for the pretty URL after each of them. The collaborators are assumed to keep
the registry entries' ids and URLs and to derive ids that are not generated ids. -/
theorem toggle_twice_one_derived_source {X M R : Type} (env : Env X M R) (st : Store X)
    (sourceId : String) (source : Source) (r1 : ToggleResult R)
    (hkeep : env.KeepsSources) (hder : env.DerivedIdsNotGenerated)
    (hsrc : getSource st sourceId = some source)
    (hloaded : isLoaded source = true)
    (hnone : getSourceByURL st (env.getPrettySourceURL source.url) = none)
    (hok : ((togglePrettyPrint env sourceId).run env st).result = .ok r1) :
    ∃ d : String,
      Event.dispatch (.ADD_SOURCE (placeholder (env.getPrettySourceURL source.url) d)) ∈
        ((togglePrettyPrint env sourceId).run env st).trace ∧
      (((togglePrettyPrint env sourceId).run env st).trace ++
        ((togglePrettyPrint env sourceId).run env
          ((togglePrettyPrint env sourceId).run env st).store).trace).countP
            Event.isAddSource = 1 ∧
      (∀ ev ∈ ((togglePrettyPrint env sourceId).run env
          ((togglePrettyPrint env sourceId).run env st).store).trace,
        ev.isCreationStep = false) ∧
      (∀ ev ∈ ((togglePrettyPrint env sourceId).run env
          ((togglePrettyPrint env sourceId).run env st).store).trace,
        ev.isSelectLocation = true →
          ∃ loc b, ev = .call (.selectLocation (spreadLocation loc d)) b) ∧
      (∀ r2, ((togglePrettyPrint env sourceId).run env
          ((togglePrettyPrint env sourceId).run env st).store).result = .ok r2 →
        ∃ v, r2 = .selected v) ∧
      countByURL ((togglePrettyPrint env sourceId).run env st).store
        (env.getPrettySourceURL source.url) = 1 ∧
      countByURL ((togglePrettyPrint env sourceId).run env
          ((togglePrettyPrint env sourceId).run env st).store).store
        (env.getPrettySourceURL source.url) = 1 := by
  have hal : afterLoad env source st = st := by simp [afterLoad, hloaded]
  have hnone1 : getSourceByURL (afterLoad env source st) (env.getPrettySourceURL source.url)
      = none := by rw [hal]; exact hnone
  have hg := toggle_ok_generated env st sourceId source r1 hsrc hok
  obtain ⟨source2, d, code, m, v, hs2, hd, hpp, hres, hsources, hv, hrun⟩ :=
    toggle_creation env st sourceId source r1 hsrc hnone1 hok
  rw [hal] at hs2
  rw [hsrc] at hs2
  cases hs2
  have hdne : d ≠ sourceId := by
    intro h
    have := hder _ _ _ _ hd
    rw [h, hg] at this
    cases this
  -- the registry the first toggle leaves
  have hk : ((togglePrettyPrint env sourceId).run env st).store.sources.map Source.key =
      (upsert (loadedPretty (env.getPrettySourceURL source.url) d code) st.sources).map
        Source.key := by
    rw [hrun]
    simp only
    have h1 := hkeep (.selectLocation (spreadLocation (translated env (afterLoad env source st)) d))
      (afterRemap env sourceId (placeholder (env.getPrettySourceURL source.url) d)
        ((createPrettySource env sourceId).run env
          (afterTranslate env (afterLoad env source st))).store)
    simp only [Env.perform] at h1
    rw [h1, keys_afterRemap env hkeep, hsources, hal,
      upsert_upsert (placeholder (env.getPrettySourceURL source.url) d)
        (loadedPretty (env.getPrettySourceURL source.url) d code) _ rfl]
  have hfind : st.sources.find? (fun t => t.url ==
      (loadedPretty (env.getPrettySourceURL source.url) d code).url) = none := hnone
  have hk' : ((togglePrettyPrint env sourceId).run env st).store.sources.map Source.key =
      ({ st with sources := (upsert (loadedPretty (env.getPrettySourceURL source.url) d code)
          st.sources) } : Store X).sources.map Source.key := hk
  -- the generated source is still registered, with its URL
  have hsrc2 : ∃ source3, getSource ((togglePrettyPrint env sourceId).run env st).store sourceId
      = some source3 ∧ source3.url = source.url := by
    have h1 := getSource_of_keys _ _ sourceId hk'
    have h2 : getSource ({ st with sources :=
        (upsert (loadedPretty (env.getPrettySourceURL source.url) d code) st.sources) } : Store X)
        sourceId = some source := by
      unfold getSource
      simp only
      rw [find_upsert_other _ _ _ (by exact hdne)]
      exact hsrc
    rw [h2] at h1
    cases h3 : getSource ((togglePrettyPrint env sourceId).run env st).store sourceId with
    | none => rw [h3] at h1; simp at h1
    | some source3 =>
      rw [h3] at h1
      simp only [Option.map_some', Option.some.injEq, Source.key, Prod.mk.injEq] at h1
      exact ⟨source3, rfl, h1.2⟩
  obtain ⟨source3, hs3, hurl3⟩ := hsrc2
  -- the pretty source is registered, under the derived id
  have hreg : ∃ p, getSourceByURL ((togglePrettyPrint env sourceId).run env st).store
      (env.getPrettySourceURL source.url) = some p ∧ p.id = d := by
    have h1 := getSourceByURL_of_keys _ _ (env.getPrettySourceURL source.url) hk'
    have h2 : getSourceByURL ({ st with sources :=
        (upsert (loadedPretty (env.getPrettySourceURL source.url) d code) st.sources) } : Store X)
        (env.getPrettySourceURL source.url) =
          some (loadedPretty (env.getPrettySourceURL source.url) d code) :=
      find_url_upsert _ _ hfind
    rw [h2] at h1
    cases h3 : getSourceByURL ((togglePrettyPrint env sourceId).run env st).store
        (env.getPrettySourceURL source.url) with
    | none => rw [h3] at h1; simp at h1
    | some p =>
      rw [h3] at h1
      simp only [Option.map_some', Option.some.injEq, Source.key, Prod.mk.injEq] at h1
      exact ⟨p, rfl, h1.1⟩
  obtain ⟨p, hp, hpid⟩ := hreg
  have hcount1 : countByURL ((togglePrettyPrint env sourceId).run env st).store
      (env.getPrettySourceURL source.url) = 1 := by
    rw [countByURL_of_keys _ _ _ hk']
    exact count_url_upsert _ _ hfind
  rw [← hurl3] at hp
  obtain ⟨hcre, hsel, hres2, hkeys2⟩ :=
    toggle_with_pretty_registered env hkeep _ sourceId source3 p hs3 hp
  rw [hpid] at hsel
  refine ⟨d, ?_, ?_, hcre, hsel, hres2, hcount1, ?_⟩
  · rw [hrun]
    simp
  · rw [List.countP_append]
    have h2 : (((togglePrettyPrint env sourceId).run env
        ((togglePrettyPrint env sourceId).run env st).store).trace).countP
          Event.isAddSource = 0 := by
      rw [List.countP_eq_zero]
      intro ev hev
      simp [addSource_isCreationStep ev (hcre ev hev)]
    rw [h2, hrun]
    simp [List.countP_append, preamble_countP_add, List.countP_cons, Event.isAddSource]
  · rw [countByURL_of_keys _ _ _ hkeys2]
    exact hcount1

/-! ## Two calls in flight -/

/-- C10, as stated, fails: two toggles of `gen1` issued back to back both take the
creation path. When the second is issued the first is suspended at
`generatedToOriginalId` and has registered no placeholder yet; run to their ends, the two
calls make two reformat calls, two mapping binds and two `ADD_SOURCE` dispatches. -/
theorem back_to_back_toggles_both_create :
    (staggered demoEnv "gen1" demoStore 0).world.trace = [] ∧
    (staggered demoEnv "gen1" demoStore 0).first.ended = false ∧
    (((staggered demoEnv "gen1" demoStore 0).steps demoEnv
        [true, false, true, false, true, false, true, false,
         true, false, true, false, true, false, true, false]).first.ended = true) ∧
    (((staggered demoEnv "gen1" demoStore 0).steps demoEnv
        [true, false, true, false, true, false, true, false,
         true, false, true, false, true, false, true, false]).second.ended = true) ∧
    (((staggered demoEnv "gen1" demoStore 0).steps demoEnv
        [true, false, true, false, true, false, true, false,
         true, false, true, false, true, false, true, false]).world.trace.countP
      Event.isReformat = 2) ∧
    (((staggered demoEnv "gen1" demoStore 0).steps demoEnv
        [true, false, true, false, true, false, true, false,
         true, false, true, false, true, false, true, false]).world.trace.countP
      Event.isBind = 2) ∧
    (((staggered demoEnv "gen1" demoStore 0).steps demoEnv
        [true, false, true, false, true, false, true, false,
         true, false, true, false, true, false, true, false]).world.trace.countP
      Event.isAddSource = 2) := by
  refine ⟨rfl, rfl, rfl, rfl, rfl, rfl, rfl⟩

/-! ## One call in flight alone runs as `run` does -/

/-- A call issued and then resumed often enough, with nothing interleaved, ends with the
result, the store and the effects of `run`. -/
theorem sync_resumeN_run {X M R α : Type} (env : Env X M R) (p : Prog X M R α) :
    ∀ w : World X M, ∃ n,
      Prog.resumeN env n (p.sync env w) =
        ((match (p.run env w.store).result with
          | .ok a => Prog.ret a
          | .error e => Prog.throw e),
         { store := (p.run env w.store).store, trace := w.trace ++ (p.run env w.store).trace }) := by
  induction p with
  | ret a => intro w; exact ⟨0, by simp [Prog.resumeN, Prog.sync, run_ret]⟩
  | throw e => intro w; exact ⟨0, by simp [Prog.resumeN, Prog.sync, run_throw]⟩
  | getState k ih =>
    intro w
    obtain ⟨n, hn⟩ := ih w.store w
    exact ⟨n, by simpa [Prog.sync, run_getState] using hn⟩
  | dispatch a k ih =>
    intro w
    obtain ⟨n, hn⟩ := ih { store := reducer a w.store, trace := w.trace ++ [.dispatch a] }
    exact ⟨n, by simpa [Prog.sync, run_dispatch] using hn⟩
  | setSource s k ih =>
    intro w
    obtain ⟨n, hn⟩ := ih { store := { w.store with ext := env.setSource s w.store.ext },
                           trace := w.trace ++ [.setSource s] }
    exact ⟨n, by simpa [Prog.sync, run_setSource] using hn⟩
  | await op k ih =>
    intro w
    cases hc : (env.perform op w.store).1 with
    | error e =>
      refine ⟨1, ?_⟩
      simp [Prog.resumeN, Prog.sync, Prog.resume, run_await, hc]
    | ok v =>
      obtain ⟨n, hn⟩ := ih v { store := (env.perform op w.store).2,
                               trace := w.trace ++ [.call op true] }
      refine ⟨n + 1, ?_⟩
      simp only [Prog.resumeN, Prog.sync, Prog.resume, hc, run_await]
      simpa using hn

/-! ## Budgets of what is left of a call -/

theorem Within.mono {X M R α : Type} {env : Env X M R} {sourceId url : String} {g : Bool}
    {a n m : Nat} {p : Prog X M R α} (h : Within env sourceId url g a n m p) :
    ∀ a2 n2 m2, a ≤ a2 → n ≤ n2 → m ≤ m2 → Within env sourceId url g a2 n2 m2 p := by
  induction h with
  | ret a n m x => intro a2 n2 m2 _ _ _; exact .ret _ _ _ x
  | throw a n m e => intro a2 n2 m2 _ _ _; exact .throw _ _ _ e
  | getState a n m k _ ih =>
    intro a2 n2 m2 ha hn hm
    exact .getState _ _ _ k fun st hS hR => ih st hS hR a2 n2 m2 ha hn hm
  | add a n m s k hu hi _ ih =>
    intro a2 n2 m2 ha hn hm
    obtain ⟨a3, rfl⟩ : ∃ a3, a2 = a3 + 1 := ⟨a2 - 1, by omega⟩
    exact .add _ _ _ s k hu hi (ih a3 n2 m2 (by omega) hn hm)
  | update a n m s k hu hi _ ih =>
    intro a2 n2 m2 ha hn hm
    exact .update _ _ _ s k hu hi (ih a2 n2 m2 ha hn hm)
  | setSource a n m s k _ ih =>
    intro a2 n2 m2 ha hn hm
    exact .setSource _ _ _ s k (ih a2 n2 m2 ha hn hm)
  | reformat a n m s u k _ ih =>
    intro a2 n2 m2 ha hn hm
    obtain ⟨n3, rfl⟩ : ∃ n3, n2 = n3 + 1 := ⟨n2 - 1, by omega⟩
    exact .reformat _ _ _ s u k fun v => ih v a2 n3 m2 ha (by omega) hm
  | bind a n m i u c mp k _ ih =>
    intro a2 n2 m2 ha hn hm
    obtain ⟨m3, rfl⟩ : ∃ m3, m2 = m3 + 1 := ⟨m2 - 1, by omega⟩
    exact .bind _ _ _ i u c mp k fun v => ih v a2 n2 m3 ha hn (by omega)
  | derive a n m i u k _ ih =>
    intro a2 n2 m2 ha hn hm
    exact .derive _ _ _ i u k fun d hd => ih d hd a2 n2 m2 ha hn hm
  | plain a n m op k hp _ ih =>
    intro a2 n2 m2 ha hn hm
    exact .plain _ _ _ op k hp fun v => ih v a2 n2 m2 ha hn hm

theorem Within.registered {X M R α : Type} {env : Env X M R} {sourceId url : String}
    {a n m : Nat} {p : Prog X M R α} (h : Within env sourceId url false a n m p) :
    Within env sourceId url true a n m p := by
  induction h with
  | ret a n m x => exact .ret _ _ _ x
  | throw a n m e => exact .throw _ _ _ e
  | getState a n m k _ ih => exact .getState _ _ _ k fun st hS _ => ih st hS (by simp)
  | add a n m s k hu hi _ ih => exact .add _ _ _ s k hu hi ih
  | update a n m s k hu hi _ ih => exact .update _ _ _ s k hu hi ih
  | setSource a n m s k _ ih => exact .setSource _ _ _ s k ih
  | reformat a n m s u k _ ih => exact .reformat _ _ _ s u k ih
  | bind a n m i u c mp k _ ih => exact .bind _ _ _ i u c mp k ih
  | derive a n m i u k _ ih => exact .derive _ _ _ i u k ih
  | plain a n m op k hp _ ih => exact .plain _ _ _ op k hp ih

theorem Within.bindProg {X M R α β : Type} {env : Env X M R} {sourceId url : String} {g : Bool}
    {a n m : Nat} {p : Prog X M R α} (h : Within env sourceId url g a n m p)
    (a2 n2 m2 : Nat) (f : α → Prog X M R β)
    (hf : ∀ x, Within env sourceId url g a2 n2 m2 (f x)) :
    Within env sourceId url g (a + a2) (n + n2) (m + m2) (p.bind f) := by
  induction h with
  | ret a n m x =>
    exact (hf x).mono _ _ _ (by omega) (by omega) (by omega)
  | throw a n m e => exact .throw _ _ _ e
  | getState a n m k _ ih => exact .getState _ _ _ _ fun st hS hR => ih st hS hR
  | add a n m s k hu hi _ ih =>
    have : a + 1 + a2 = (a + a2) + 1 := by omega
    rw [this]
    exact .add _ _ _ s _ hu hi ih
  | update a n m s k hu hi _ ih => exact .update _ _ _ s _ hu hi ih
  | setSource a n m s k _ ih => exact .setSource _ _ _ s _ ih
  | reformat a n m s u k _ ih =>
    have : n + 1 + n2 = (n + n2) + 1 := by omega
    rw [this]
    exact .reformat _ _ _ s u _ ih
  | bind a n m i u c mp k _ ih =>
    have : m + 1 + m2 = (m + m2) + 1 := by omega
    rw [this]
    exact .bind _ _ _ i u c mp _ ih
  | derive a n m i u k _ ih => exact .derive _ _ _ i u _ ih
  | plain a n m op k hp _ ih => exact .plain _ _ _ op _ hp ih

theorem createPrettySource_within {X M R : Type} (env : Env X M R) (sourceId url : String)
    (g : Bool) (hg : env.isGeneratedId sourceId = true) :
    Within env sourceId url g 1 1 1 (createPrettySource env sourceId) := by
  unfold createPrettySource
  refine .getState _ _ _ _ fun st hS _ => ?_
  cases hs : getSource st sourceId with
  | none => exact .throw _ _ _ _
  | some source =>
    have hU := hS source hs
    simp only
    refine .derive _ _ _ _ _ _ fun d hd => ?_
    have hne : d ≠ sourceId := by
      intro h
      rw [h, hg] at hd
      cases hd
    refine .add 0 1 1 _ _ hU hne ?_
    refine .reformat 0 0 1 _ _ _ fun r => ?_
    refine .bind 0 0 0 _ _ _ _ _ fun _ => ?_
    refine .setSource _ _ _ _ _ ?_
    refine .update _ _ _ _ _ hU hne ?_
    exact .ret _ _ _ _

theorem remapAndSelect_within {X M R : Type} (env : Env X M R) (sourceId url : String)
    (g : Bool) (location : Option Location) (p : Source) :
    Within env sourceId url g 0 0 0
      (remapAndSelect sourceId location p : Prog X M R (ToggleResult R)) := by
  unfold remapAndSelect
  refine .plain _ _ _ _ _ rfl fun _ => ?_
  refine .plain _ _ _ _ _ rfl fun _ => ?_
  refine .plain _ _ _ _ _ rfl fun _ => ?_
  refine .plain _ _ _ _ _ rfl fun _ => ?_
  refine .plain _ _ _ _ _ rfl fun _ => ?_
  exact .ret _ _ _ _

theorem loadIfNeeded_within {X M R : Type} (env : Env X M R) (sourceId url : String)
    (g : Bool) (source : Source) :
    Within env sourceId url g 0 0 0 (loadIfNeeded source : Prog X M R Unit) := by
  unfold loadIfNeeded
  split
  · exact .plain _ _ _ _ _ rfl fun _ => .ret _ _ _ _
  · exact .ret _ _ _ _

theorem translateSelected_within {X M R : Type} (env : Env X M R) (sourceId url : String)
    (g : Bool) (sel : Option Location) :
    Within env sourceId url g 0 0 0 (translateSelected sel : Prog X M R (Option Location)) := by
  unfold translateSelected
  cases sel with
  | none => exact .ret _ _ _ _
  | some l => exact .plain _ _ _ _ _ rfl fun _ => .ret _ _ _ _

/-- A call of `togglePrettyPrint` dispatches at most one `ADD_SOURCE` and makes at most one
reformat call and one mapping bind. -/
theorem toggle_within_fresh {X M R : Type} (env : Env X M R) (sourceId url : String) :
    Within env sourceId url false 1 1 1 (togglePrettyPrint env sourceId) := by
  unfold togglePrettyPrint
  refine .getState _ _ _ _ fun st hS _ => ?_
  cases hs : getSource st sourceId with
  | none => exact .ret _ _ _ _
  | some source =>
    simp only
    refine (loadIfNeeded_within env sourceId url false source).bindProg 1 1 1 _ fun _ => ?_
    unfold assert
    cases hg : env.isGeneratedId sourceId
    · exact .throw _ _ _ _
    simp only [if_true]
    refine .getState _ _ _ _ fun st1 _ _ => ?_
    refine .getState _ _ _ _ fun st2 _ _ => ?_
    refine (translateSelected_within env sourceId url false _).bindProg 1 1 1 _ fun loc => ?_
    cases getSourceByURL st2 (env.getPrettySourceURL source.url) with
    | some p => exact .plain _ _ _ _ _ rfl fun _ => .ret _ _ _ _
    | none =>
      exact (createPrettySource_within env sourceId url false hg).bindProg 0 0 0 _
        fun p => remapAndSelect_within env sourceId url false loc p

/-- A call of `togglePrettyPrint` that reads only stores with a source registered for the
pretty URL dispatches no `ADD_SOURCE` and makes no reformat call and no mapping bind. -/
theorem toggle_within_registered {X M R : Type} (env : Env X M R) (sourceId url : String) :
    Within env sourceId url true 0 0 0 (togglePrettyPrint env sourceId) := by
  unfold togglePrettyPrint
  refine .getState _ _ _ _ fun st hS _ => ?_
  cases hs : getSource st sourceId with
  | none => exact .ret _ _ _ _
  | some source =>
    have hU := hS source hs
    simp only
    refine (loadIfNeeded_within env sourceId url true source).bindProg 0 0 0 _ fun _ => ?_
    unfold assert
    cases hg : env.isGeneratedId sourceId
    · exact .throw _ _ _ _
    simp only [if_true]
    refine .getState _ _ _ _ fun st1 _ _ => ?_
    refine .getState _ _ _ _ fun st2 _ hR => ?_
    refine (translateSelected_within env sourceId url true _).bindProg 0 0 0 _ fun loc => ?_
    obtain ⟨p, hp⟩ := hR rfl
    rw [hU, hp]
    exact .plain _ _ _ _ _ rfl fun _ => .ret _ _ _ _

theorem urlStable_of_keys {X M R : Type} (env : Env X M R) (sourceId url : String)
    (st1 st2 : Store X) (h : st2.sources.map Source.key = st1.sources.map Source.key)
    (hS : UrlStable env sourceId url st1) : UrlStable env sourceId url st2 := by
  intro s hs
  have hk := getSource_of_keys st2 st1 sourceId h
  rw [hs] at hk
  cases h1 : getSource st1 sourceId with
  | none => rw [h1] at hk; simp at hk
  | some s1 =>
    rw [h1] at hk
    simp only [Option.map_some', Option.some.injEq, Source.key, Prod.mk.injEq] at hk
    rw [hk.2]
    exact hS s1 h1

theorem registered_of_keys {X : Type} (url : String)
    (st1 st2 : Store X) (h : st2.sources.map Source.key = st1.sources.map Source.key)
    (hR : Registered url st1) : Registered url st2 := by
  obtain ⟨p, hp⟩ := hR
  have hk := getSourceByURL_of_keys st2 st1 url h
  rw [hp] at hk
  cases h2 : getSourceByURL st2 url with
  | none => rw [h2] at hk; simp at hk
  | some p2 => exact ⟨p2, h2⟩

theorem urlStable_reducer {X M R : Type} (env : Env X M R) (sourceId url : String)
    (st : Store X) (a : Action) (hi : a.source.id ≠ sourceId)
    (hS : UrlStable env sourceId url st) : UrlStable env sourceId url (reducer a st) := by
  intro s hs
  apply hS s
  unfold getSource reducer at hs
  simp only at hs
  rw [find_upsert_other _ _ _ hi] at hs
  exact hs

theorem registered_reducer {X : Type} (url : String) (st : Store X) (a : Action)
    (hu : a.source.url = url) : Registered url (reducer a st) := by
  unfold Registered getSourceByURL reducer
  simp only
  have hmem := mem_upsert_self a.source st.sources
  cases h : (upsert a.source st.sources).find? (fun s => s.url == url) with
  | some p => exact ⟨p, rfl⟩
  | none =>
    have := List.find?_eq_none.mp h a.source hmem
    simp [hu] at this

theorem sync_within {X M R α : Type} {env : Env X M R} {sourceId url : String} {g : Bool}
    {a n m : Nat} {p : Prog X M R α} (h : Within env sourceId url g a n m p) :
    ∀ w : World X M, UrlStable env sourceId url w.store →
      (g = true → Registered url w.store) →
      ∃ a2, Within env sourceId url g a2 n m (p.sync env w).1 ∧
        UrlStable env sourceId url (p.sync env w).2.store ∧
        (Registered url w.store ∨
            w.trace.countP Event.isAddSource < (p.sync env w).2.trace.countP Event.isAddSource →
          Registered url (p.sync env w).2.store) ∧
        (p.sync env w).2.trace.countP Event.isAddSource + a2
          ≤ w.trace.countP Event.isAddSource + a ∧
        w.trace.countP Event.isAddSource ≤ (p.sync env w).2.trace.countP Event.isAddSource ∧
        (p.sync env w).2.trace.countP Event.isReformat = w.trace.countP Event.isReformat ∧
        (p.sync env w).2.trace.countP Event.isBind = w.trace.countP Event.isBind := by
  induction h with
  | ret a n m x =>
    intro w hS _
    exact ⟨a, .ret _ _ _ x, hS, fun h => h.elim id (fun h => absurd h (lt_irrefl _)),
      le_refl _, le_refl _, rfl, rfl⟩
  | throw a n m e =>
    intro w hS _
    exact ⟨a, .throw _ _ _ e, hS, fun h => h.elim id (fun h => absurd h (lt_irrefl _)),
      le_refl _, le_refl _, rfl, rfl⟩
  | getState a n m k _ ih =>
    intro w hS hR
    exact ih w.store hS hR w hS hR
  | add a n m s k hu hi _ ih =>
    intro w hS hR
    have hS1 := urlStable_reducer env sourceId url w.store (.ADD_SOURCE s) hi hS
    have hR1 : Registered url (reducer (.ADD_SOURCE s) w.store) :=
      registered_reducer url w.store (.ADD_SOURCE s) hu
    obtain ⟨a2, hW, hS2, hR2, hc1, hc2, hc3, hc4⟩ :=
      ih { store := reducer (.ADD_SOURCE s) w.store,
           trace := w.trace ++ [.dispatch (.ADD_SOURCE s)] } hS1 (fun _ => hR1)
    simp only [List.countP_append, List.countP_singleton, Event.isAddSource, Event.isReformat,
      Event.isBind] at hc1 hc2 hc3 hc4
    refine ⟨a2, hW, hS2, fun _ => hR2 (Or.inl hR1), ?_, ?_, ?_, ?_⟩
    · simp only [Prog.sync]; simp at hc1; omega
    · simp only [Prog.sync]; simp at hc2; omega
    · simp only [Prog.sync]; simpa using hc3
    · simp only [Prog.sync]; simpa using hc4
  | update a n m s k hu hi _ ih =>
    intro w hS hR
    have hS1 := urlStable_reducer env sourceId url w.store (.UPDATE_SOURCE s) hi hS
    have hR1 : Registered url (reducer (.UPDATE_SOURCE s) w.store) :=
      registered_reducer url w.store (.UPDATE_SOURCE s) hu
    obtain ⟨a2, hW, hS2, hR2, hc1, hc2, hc3, hc4⟩ :=
      ih { store := reducer (.UPDATE_SOURCE s) w.store,
           trace := w.trace ++ [.dispatch (.UPDATE_SOURCE s)] } hS1 (fun _ => hR1)
    simp only [List.countP_append, List.countP_singleton, Event.isAddSource, Event.isReformat,
      Event.isBind] at hc1 hc2 hc3 hc4
    refine ⟨a2, hW, hS2, fun _ => hR2 (Or.inl hR1), ?_, ?_, ?_, ?_⟩
    · simp only [Prog.sync]; simp at hc1; omega
    · simp only [Prog.sync]; simp at hc2; omega
    · simp only [Prog.sync]; simpa using hc3
    · simp only [Prog.sync]; simpa using hc4
  | setSource a n m s k _ ih =>
    intro w hS hR
    obtain ⟨a2, hW, hS2, hR2, hc1, hc2, hc3, hc4⟩ :=
      ih { store := { w.store with ext := env.setSource s w.store.ext },
           trace := w.trace ++ [.setSource s] } hS hR
    simp only [List.countP_append, List.countP_singleton, Event.isAddSource, Event.isReformat,
      Event.isBind] at hc1 hc2 hc3 hc4
    refine ⟨a2, hW, hS2, ?_, ?_, ?_, ?_, ?_⟩
    · intro h
      apply hR2
      rcases h with h | h
      · exact Or.inl h
      · right
        simp only [Prog.sync] at h
        simpa [List.countP_append, Event.isAddSource] using h
    · simp only [Prog.sync]; simp at hc1; omega
    · simp only [Prog.sync]; simp at hc2; omega
    · simp only [Prog.sync]; simpa using hc3
    · simp only [Prog.sync]; simpa using hc4
  | reformat a n m s u k _ _ =>
    intro w hS _
    exact ⟨a, .reformat _ _ _ s u k (by assumption), hS,
      fun h => h.elim id (fun h => absurd h (lt_irrefl _)), le_refl _, le_refl _, rfl, rfl⟩
  | bind a n m i u c mp k _ _ =>
    intro w hS _
    exact ⟨a, .bind _ _ _ i u c mp k (by assumption), hS,
      fun h => h.elim id (fun h => absurd h (lt_irrefl _)), le_refl _, le_refl _, rfl, rfl⟩
  | derive a n m i u k _ _ =>
    intro w hS _
    exact ⟨a, .derive _ _ _ i u k (by assumption), hS,
      fun h => h.elim id (fun h => absurd h (lt_irrefl _)), le_refl _, le_refl _, rfl, rfl⟩
  | plain a n m op k hp _ _ =>
    intro w hS _
    exact ⟨a, .plain _ _ _ op k hp (by assumption), hS,
      fun h => h.elim id (fun h => absurd h (lt_irrefl _)), le_refl _, le_refl _, rfl, rfl⟩

theorem resume_await_within {X M R α : Type} {env : Env X M R} {sourceId url : String}
    {g : Bool} (hkeep : env.KeepsSources) (a n m : Nat) (op : Op M)
    (k : op.Res R → Prog X M R α) (w : World X M)
    (hk : ∀ v, (env.perform op w.store).1 = .ok v → Within env sourceId url g a n m (k v))
    (hS : UrlStable env sourceId url w.store) (hR : g = true → Registered url w.store) :
    ∃ a2, Within env sourceId url g a2 n m ((Prog.await op k).resume env w).1 ∧
      UrlStable env sourceId url ((Prog.await op k).resume env w).2.store ∧
      (Registered url w.store ∨
          w.trace.countP Event.isAddSource
            < ((Prog.await op k).resume env w).2.trace.countP Event.isAddSource →
        Registered url ((Prog.await op k).resume env w).2.store) ∧
      ((Prog.await op k).resume env w).2.trace.countP Event.isAddSource + a2
        ≤ w.trace.countP Event.isAddSource + a ∧
      w.trace.countP Event.isAddSource
        ≤ ((Prog.await op k).resume env w).2.trace.countP Event.isAddSource ∧
      ((Prog.await op k).resume env w).2.trace.countP Event.isReformat =
        w.trace.countP Event.isReformat + (if Event.isReformat (.call op true) then 1 else 0) ∧
      ((Prog.await op k).resume env w).2.trace.countP Event.isBind =
        w.trace.countP Event.isBind + (if Event.isBind (.call op true) then 1 else 0) := by
  have hS1 : UrlStable env sourceId url (env.perform op w.store).2 :=
    urlStable_of_keys env sourceId url _ _ (hkeep op w.store) hS
  have hRk : Registered url w.store → Registered url (env.perform op w.store).2 :=
    registered_of_keys url _ _ (hkeep op w.store)
  have hflagR : ∀ b, Event.isReformat (Event.call op b) = Event.isReformat (Event.call op true) := by
    intro b; cases op <;> rfl
  have hflagB : ∀ b, Event.isBind (Event.call op b) = Event.isBind (Event.call op true) := by
    intro b; cases op <;> rfl
  simp only [Prog.resume]
  cases hc : (env.perform op w.store).1 with
  | error e =>
    refine ⟨a, .throw _ _ _ _, hS1, ?_, ?_, ?_, ?_, ?_⟩
    · intro h
      rcases h with h | h
      · exact hRk h
      · simp [List.countP_append, Event.isAddSource] at h
    · simp [List.countP_append, Event.isAddSource]
    · simp [List.countP_append, Event.isAddSource]
    · simp [List.countP_append, List.countP_singleton, hflagR false]
    · simp [List.countP_append, List.countP_singleton, hflagB false]
  | ok v =>
    obtain ⟨a2, hW, hS2, hR2, hc1, hc2, hc3, hc4⟩ :=
      sync_within (hk v hc)
        { store := (env.perform op w.store).2, trace := w.trace ++ [.call op true] }
        hS1 (fun hg => hRk (hR hg))
    simp only [List.countP_append, List.countP_singleton] at hc1 hc2 hc3 hc4
    have hz : Event.isAddSource (Event.call op true : Event M) = false := rfl
    simp only [hz] at hc1 hc2
    refine ⟨a2, hW, hS2, ?_, ?_, ?_, ?_, ?_⟩
    · intro h
      apply hR2
      rcases h with h | h
      · exact Or.inl (hRk h)
      · right
        simpa [List.countP_append, hz] using h
    · simpa using hc1
    · simpa using hc2
    · rw [hc3]
    · rw [hc4]

theorem resume_within {X M R α : Type} {env : Env X M R} {sourceId url : String} {g : Bool}
    (hkeep : env.KeepsSources) (hder : env.DerivedIdsNotGenerated)
    {a n m : Nat} {p : Prog X M R α} (h : Within env sourceId url g a n m p)
    (w : World X M) (hS : UrlStable env sourceId url w.store)
    (hR : g = true → Registered url w.store) :
    ∃ a2 n2 m2, Within env sourceId url g a2 n2 m2 (p.resume env w).1 ∧
      UrlStable env sourceId url (p.resume env w).2.store ∧
      (Registered url w.store ∨
          w.trace.countP Event.isAddSource < (p.resume env w).2.trace.countP Event.isAddSource →
        Registered url (p.resume env w).2.store) ∧
      (p.resume env w).2.trace.countP Event.isAddSource + a2
        ≤ w.trace.countP Event.isAddSource + a ∧
      (p.resume env w).2.trace.countP Event.isReformat + n2
        ≤ w.trace.countP Event.isReformat + n ∧
      (p.resume env w).2.trace.countP Event.isBind + m2 ≤ w.trace.countP Event.isBind + m ∧
      w.trace.countP Event.isAddSource ≤ (p.resume env w).2.trace.countP Event.isAddSource ∧
      w.trace.countP Event.isReformat ≤ (p.resume env w).2.trace.countP Event.isReformat ∧
      w.trace.countP Event.isBind ≤ (p.resume env w).2.trace.countP Event.isBind := by
  have hstay : ∀ (q : Prog X M R α), q.resume env w = (q, w) →
      Within env sourceId url g a n m q →
      ∃ a2 n2 m2, Within env sourceId url g a2 n2 m2 (q.resume env w).1 ∧
        UrlStable env sourceId url (q.resume env w).2.store ∧
        (Registered url w.store ∨
            w.trace.countP Event.isAddSource
              < (q.resume env w).2.trace.countP Event.isAddSource →
          Registered url (q.resume env w).2.store) ∧
        (q.resume env w).2.trace.countP Event.isAddSource + a2
          ≤ w.trace.countP Event.isAddSource + a ∧
        (q.resume env w).2.trace.countP Event.isReformat + n2
          ≤ w.trace.countP Event.isReformat + n ∧
        (q.resume env w).2.trace.countP Event.isBind + m2 ≤ w.trace.countP Event.isBind + m ∧
        w.trace.countP Event.isAddSource ≤ (q.resume env w).2.trace.countP Event.isAddSource ∧
        w.trace.countP Event.isReformat ≤ (q.resume env w).2.trace.countP Event.isReformat ∧
        w.trace.countP Event.isBind ≤ (q.resume env w).2.trace.countP Event.isBind := by
    intro q hq hW
    rw [hq]
    exact ⟨a, n, m, hW, hS, fun h => h.elim id (fun h => absurd h (lt_irrefl _)),
      le_refl _, le_refl _, le_refl _, le_refl _, le_refl _, le_refl _⟩
  cases h with
  | ret a n m x => exact hstay _ rfl (.ret _ _ _ x)
  | throw a n m e => exact hstay _ rfl (.throw _ _ _ e)
  | getState a n m k hk => exact hstay _ rfl (.getState _ _ _ k hk)
  | add a n m s k hu hi hk => exact hstay _ rfl (.add _ _ _ s k hu hi hk)
  | update a n m s k hu hi hk => exact hstay _ rfl (.update _ _ _ s k hu hi hk)
  | setSource a n m s k hk => exact hstay _ rfl (.setSource _ _ _ s k hk)
  | reformat a n m s u k hk =>
    obtain ⟨a2, hW, hS2, hR2, hc1, hc2, hc3, hc4⟩ :=
      resume_await_within hkeep a n m (.prettyPrint s u) k w (fun v _ => hk v) hS hR
    simp only [Event.isReformat, Event.isBind, if_true] at hc3 hc4
    exact ⟨a2, n, m, hW, hS2, hR2, hc1, by omega, by simp at hc4; omega, hc2, by omega,
      by simp at hc4; omega⟩
  | bind a n m i u c mp k hk =>
    obtain ⟨a2, hW, hS2, hR2, hc1, hc2, hc3, hc4⟩ :=
      resume_await_within hkeep a n m (.applySourceMap i u c mp) k w (fun v _ => hk v) hS hR
    simp only [Event.isReformat, Event.isBind, if_true] at hc3 hc4
    exact ⟨a2, n, m, hW, hS2, hR2, hc1, by simp at hc3; omega, by omega, hc2,
      by simp at hc3; omega, by omega⟩
  | derive a n m i u k hk =>
    obtain ⟨a2, hW, hS2, hR2, hc1, hc2, hc3, hc4⟩ :=
      resume_await_within hkeep a n m (.generatedToOriginalId i u) k w
        (fun v hv => hk v (hder i u w.store.ext v hv)) hS hR
    simp only [Event.isReformat, Event.isBind] at hc3 hc4
    exact ⟨a2, n, m, hW, hS2, hR2, hc1, by simp at hc3; omega, by simp at hc4; omega, hc2,
      by simp at hc3; omega, by simp at hc4; omega⟩
  | plain a n m op k hp hk =>
    obtain ⟨a2, hW, hS2, hR2, hc1, hc2, hc3, hc4⟩ :=
      resume_await_within hkeep a n m op k w (fun v _ => hk v) hS hR
    have h1 : Event.isReformat (Event.call op true : Event M) = false := by
      cases op <;> first | rfl | simp [Op.isPlain] at hp
    have h2 : Event.isBind (Event.call op true : Event M) = false := by
      cases op <;> first | rfl | simp [Op.isPlain] at hp
    simp only [h1, h2] at hc3 hc4
    exact ⟨a2, n, m, hW, hS2, hR2, hc1, by simp at hc3; omega, by simp at hc4; omega, hc2,
      by simp at hc3; omega, by simp at hc4; omega⟩

/-! ## The second call issued after the placeholder is registered -/

theorem aloneInv_resume {X M R α : Type} {env : Env X M R} {sourceId url : String}
    (hkeep : env.KeepsSources) (hder : env.DerivedIdsNotGenerated)
    (c : Prog X M R α × World X M) (h : AloneInv env sourceId url c) :
    AloneInv env sourceId url (c.1.resume env c.2) := by
  obtain ⟨hS, hR, a, n, m, hW, h1, h2, h3⟩ := h
  obtain ⟨a2, n2, m2, hW2, hS2, hR2, hc1, hc2, hc3, hc4, _, _⟩ :=
    resume_within hkeep hder hW c.2 hS (by simp)
  refine ⟨hS2, ?_, a2, n2, m2, hW2, by omega, by omega, by omega⟩
  intro hpos
  apply hR2
  by_cases h0 : 1 ≤ c.2.trace.countP Event.isAddSource
  · exact Or.inl (hR h0)
  · right
    omega

theorem aloneInv_resumeN {X M R α : Type} {env : Env X M R} {sourceId url : String}
    (hkeep : env.KeepsSources) (hder : env.DerivedIdsNotGenerated) (n : Nat) :
    ∀ c : Prog X M R α × World X M, AloneInv env sourceId url c →
      AloneInv env sourceId url (Prog.resumeN env n c) := by
  induction n with
  | zero => intro c h; exact h
  | succ n ih =>
    intro c h
    exact ih _ (aloneInv_resume hkeep hder c h)

theorem aloneInv_firstAlone {X M R : Type} {env : Env X M R} {sourceId url : String}
    (hkeep : env.KeepsSources) (hder : env.DerivedIdsNotGenerated) (st : Store X)
    (hS : UrlStable env sourceId url st) (n : Nat) :
    AloneInv env sourceId url (firstAlone env sourceId st n) := by
  apply aloneInv_resumeN hkeep hder
  obtain ⟨a2, hW, hS2, hR2, hc1, hc2, hc3, hc4⟩ :=
    sync_within (toggle_within_fresh env sourceId url) { store := st, trace := [] } hS (by simp)
  simp only [List.countP_nil] at hc1 hc2 hc3 hc4
  refine ⟨hS2, ?_, a2, 1, 1, hW, by omega, by omega, by omega⟩
  intro hpos
  apply hR2
  right
  simp only [List.countP_nil]
  omega

theorem pairInv_step {X M R α : Type} {env : Env X M R} {sourceId url : String}
    (hkeep : env.KeepsSources) (hder : env.DerivedIdsNotGenerated)
    (c : Pair X M R α) (b : Bool) (h : PairInv env sourceId url c) :
    PairInv env sourceId url (c.step env b) := by
  obtain ⟨hS, hR, hpos, ⟨a, n, m, hW1, h1, h2, h3⟩, hW2⟩ := h
  cases b
  · obtain ⟨a2, n2, m2, hW, hS2, hR2, hc1, hc2, hc3, hc4, hc5, hc6⟩ :=
      resume_within hkeep hder hW2 c.world hS (fun _ => hR)
    have ha : a2 = 0 := by omega
    have hn : n2 = 0 := by omega
    have hm : m2 = 0 := by omega
    subst ha hn hm
    simp only [Pair.step, Bool.false_eq_true, if_false]
    refine ⟨hS2, hR2 (Or.inl hR), ?_, ⟨a, n, m, hW1, ?_, ?_, ?_⟩, hW⟩ <;> dsimp only <;> omega
  · obtain ⟨a2, n2, m2, hW, hS2, hR2, hc1, hc2, hc3, hc4, hc5, hc6⟩ :=
      resume_within hkeep hder hW1 c.world hS (fun _ => hR)
    simp only [Pair.step, if_true]
    refine ⟨hS2, hR2 (Or.inl hR), ?_, ⟨a2, n2, m2, hW, ?_, ?_, ?_⟩, hW2⟩ <;> dsimp only <;> omega

theorem pairInv_steps {X M R α : Type} {env : Env X M R} {sourceId url : String}
    (hkeep : env.KeepsSources) (hder : env.DerivedIdsNotGenerated) (schedule : List Bool) :
    ∀ c : Pair X M R α, PairInv env sourceId url c →
      PairInv env sourceId url (c.steps env schedule) := by
  induction schedule with
  | nil => intro c h; exact h
  | cons b bs ih =>
    intro c h
    exact ih _ (pairInv_step hkeep hder c b h)

theorem urlStable_initial {X M R : Type} (env : Env X M R) (sourceId : String) (st : Store X) :
    ∃ url, UrlStable env sourceId url st := by
  cases hs : getSource st sourceId with
  | none => exact ⟨"", fun s h => by rw [hs] at h; cases h⟩
  | some source =>
    refine ⟨env.getPrettySourceURL source.url, fun s h => ?_⟩
    rw [hs] at h
    cases h
    rfl

/-- C10, amended: when the second `togglePrettyPrint(sourceId)` is issued after the first
has dispatched its `ADD_SOURCE` placeholder, then however the two calls are interleaved
at their awaits afterwards, one `ADD_SOURCE` is dispatched in all and at most one reformat
call and one mapping bind are made: the second call sees the placeholder and creates
nothing. The collaborators are assumed to keep the registry entries' ids and URLs and to
derive ids that are not generated ids. -/
theorem second_toggle_sees_placeholder {X M R : Type} (env : Env X M R) (st : Store X)
    (sourceId : String) (n : Nat) (schedule : List Bool)
    (hkeep : env.KeepsSources) (hder : env.DerivedIdsNotGenerated)
    (hadd : ∃ ev ∈ (firstAlone env sourceId st n).2.trace, ev.isAddSource = true) :
    ((staggered env sourceId st n).steps env schedule).world.trace.countP
      Event.isAddSource = 1 ∧
    ((staggered env sourceId st n).steps env schedule).world.trace.countP
      Event.isReformat ≤ 1 ∧
    ((staggered env sourceId st n).steps env schedule).world.trace.countP
      Event.isBind ≤ 1 := by
  obtain ⟨url, hS0⟩ := urlStable_initial env sourceId st
  obtain ⟨hS, hR, a, n1, m1, hW, h1, h2, h3⟩ :=
    aloneInv_firstAlone hkeep hder st hS0 n
  have hpos : 1 ≤ (firstAlone env sourceId st n).2.trace.countP Event.isAddSource := by
    obtain ⟨ev, hev, hp⟩ := hadd
    exact List.countP_pos_iff.mpr ⟨ev, hev, hp⟩
  have hReg := hR hpos
  obtain ⟨a2, hW2, hS2, hR2, hc1, hc2, hc3, hc4⟩ :=
    sync_within (toggle_within_registered env sourceId url) (firstAlone env sourceId st n).2 hS
      (fun _ => hReg)
  have ha2 : a2 = 0 := by omega
  subst ha2
  have hinv : PairInv env sourceId url (staggered env sourceId st n) := by
    refine ⟨hS2, hR2 (Or.inl hReg), ?_, ⟨a, n1, m1, hW.registered, ?_, ?_, ?_⟩, hW2⟩
    · simp only [staggered]; omega
    · simp only [staggered]; omega
    · simp only [staggered]; omega
    · simp only [staggered]; omega
  obtain ⟨_, _, hp, ⟨a3, n3, m3, _, g1, g2, g3⟩, _⟩ := pairInv_steps hkeep hder schedule _ hinv
  exact ⟨by omega, by omega, by omega⟩

/-! ## The collaborators of the scenario -/

theorem demoEnv_keepsSources : demoEnv.KeepsSources := by
  intro op st
  cases op <;> rfl

theorem append_originalSource_length (i : String) :
    (i ++ "/originalSource").length = i.length + 15 := by
  rw [String.length_append]
  rfl

theorem demoEnv_derivedIdsNotGenerated : demoEnv.DerivedIdsNotGenerated := by
  intro i u x d h
  have hd : d = i ++ "/originalSource" := by
    simp only [demoEnv] at h
    injection h with h
    exact h.symm
  subst hd
  have h1 : i ++ "/originalSource" ≠ "gen1" := by
    intro h
    have := congrArg String.length h
    rw [append_originalSource_length] at this
    have h4 : "gen1".length = 4 := rfl
    omega
  have h2 : i ++ "/originalSource" ≠ "css1" := by
    intro h
    have := congrArg String.length h
    rw [append_originalSource_length] at this
    have h4 : "css1".length = 4 := rfl
    omega
  simp [demoEnv, h1, h2]

/-! ## The scenario, twice toggled -/

/-- Witness for C2: `gen1` toggled twice in the scenario. -/
theorem toggle_twice_one_derived_source_witness :
    demoEnv.KeepsSources ∧ demoEnv.DerivedIdsNotGenerated ∧
    getSource demoStore "gen1" = some gen1 ∧
    isLoaded gen1 = true ∧
    getSourceByURL demoStore (demoEnv.getPrettySourceURL gen1.url) = none ∧
    ((togglePrettyPrint demoEnv "gen1").run demoEnv demoStore).result =
      .ok (.selected { sourceId := "gen1/originalSource", line := none, column := none }) ∧
    ((togglePrettyPrint demoEnv "gen1").run demoEnv
        ((togglePrettyPrint demoEnv "gen1").run demoEnv demoStore).store).trace =
      [ .call (.selectLocation
          { sourceId := "gen1/originalSource", line := none, column := none }) true ] ∧
    ∃ d : String,
      Event.dispatch (.ADD_SOURCE (placeholder (demoEnv.getPrettySourceURL gen1.url) d)) ∈
        ((togglePrettyPrint demoEnv "gen1").run demoEnv demoStore).trace ∧
      (((togglePrettyPrint demoEnv "gen1").run demoEnv demoStore).trace ++
        ((togglePrettyPrint demoEnv "gen1").run demoEnv
          ((togglePrettyPrint demoEnv "gen1").run demoEnv demoStore).store).trace).countP
            Event.isAddSource = 1 ∧
      (∀ ev ∈ ((togglePrettyPrint demoEnv "gen1").run demoEnv
          ((togglePrettyPrint demoEnv "gen1").run demoEnv demoStore).store).trace,
        ev.isCreationStep = false) ∧
      (∀ ev ∈ ((togglePrettyPrint demoEnv "gen1").run demoEnv
          ((togglePrettyPrint demoEnv "gen1").run demoEnv demoStore).store).trace,
        ev.isSelectLocation = true →
          ∃ loc b, ev = .call (.selectLocation (spreadLocation loc d)) b) ∧
      (∀ r2, ((togglePrettyPrint demoEnv "gen1").run demoEnv
          ((togglePrettyPrint demoEnv "gen1").run demoEnv demoStore).store).result = .ok r2 →
        ∃ v, r2 = .selected v) ∧
      countByURL ((togglePrettyPrint demoEnv "gen1").run demoEnv demoStore).store
        (demoEnv.getPrettySourceURL gen1.url) = 1 ∧
      countByURL ((togglePrettyPrint demoEnv "gen1").run demoEnv
          ((togglePrettyPrint demoEnv "gen1").run demoEnv demoStore).store).store
        (demoEnv.getPrettySourceURL gen1.url) = 1 :=
  ⟨demoEnv_keepsSources, demoEnv_derivedIdsNotGenerated, rfl, rfl, rfl, rfl, rfl,
    toggle_twice_one_derived_source demoEnv demoStore "gen1" gen1
      (.selected { sourceId := "gen1/originalSource", line := none, column := none })
      demoEnv_keepsSources demoEnv_derivedIdsNotGenerated rfl rfl rfl rfl⟩

/-- Witness for the amended C10: the second toggle of `gen1` is issued while the first
awaits the reformat, its placeholder registered; both calls run to their ends. -/
theorem second_toggle_sees_placeholder_witness :
    demoEnv.KeepsSources ∧ demoEnv.DerivedIdsNotGenerated ∧
    (∃ ev ∈ (firstAlone demoEnv "gen1" demoStore 1).2.trace, ev.isAddSource = true) ∧
    ((staggered demoEnv "gen1" demoStore 1).steps demoEnv
      [false, true, true, true, true, true, true, true]).first.ended = true ∧
    ((staggered demoEnv "gen1" demoStore 1).steps demoEnv
      [false, true, true, true, true, true, true, true]).second.ended = true ∧
    ((staggered demoEnv "gen1" demoStore 1).steps demoEnv
      [false, true, true, true, true, true, true, true]).world.trace.countP
        Event.isAddSource = 1 ∧
    ((staggered demoEnv "gen1" demoStore 1).steps demoEnv
      [false, true, true, true, true, true, true, true]).world.trace.countP
        Event.isReformat ≤ 1 ∧
    ((staggered demoEnv "gen1" demoStore 1).steps demoEnv
      [false, true, true, true, true, true, true, true]).world.trace.countP
        Event.isBind ≤ 1 :=
  ⟨demoEnv_keepsSources, demoEnv_derivedIdsNotGenerated,
    ⟨.dispatch (.ADD_SOURCE (placeholder "foo.js:formatted" "gen1/originalSource")),
      by rw [show (firstAlone demoEnv "gen1" demoStore 1).2.trace =
          [ .call (.generatedToOriginalId "gen1" "foo.js:formatted") true,
            .dispatch (.ADD_SOURCE (placeholder "foo.js:formatted" "gen1/originalSource")) ]
          from rfl]; simp,
      rfl⟩,
    rfl, rfl,
    second_toggle_sees_placeholder demoEnv demoStore "gen1" 1
      [false, true, true, true, true, true, true, true]
      demoEnv_keepsSources demoEnv_derivedIdsNotGenerated
      ⟨.dispatch (.ADD_SOURCE (placeholder "foo.js:formatted" "gen1/originalSource")),
        by rw [show (firstAlone demoEnv "gen1" demoStore 1).2.trace =
            [ .call (.generatedToOriginalId "gen1" "foo.js:formatted") true,
              .dispatch (.ADD_SOURCE (placeholder "foo.js:formatted" "gen1/originalSource")) ]
            from rfl]; simp,
        rfl⟩⟩

end PrettyPrint
